import Mathlib

/-!
Verification model for the transport-agnostic TLS layering adapter of
`twisted.protocols.tls` (`TLSMemoryBIOProtocol`, `_ProducerMembrane`,
`_PullToPush`).

The repository ships only the adapter's test suite
(`twisted/protocols/test/test_tls.py`); the adapter implementation itself is
not among the sources.  Every definition below is therefore a shallow
embedding modelled from the specification's description of the adapter,
with the test suite pinning the observable behaviour (attribute names,
buffering policy, shutdown sequencing, producer coalescing).

Bytes are modelled as `Nat`; the wire between the two endpoints carries a
list of TLS records.  The cryptographic content of records is out of scope
(the spec treats the TLS engine as an external collaborator), so a data
record carries its plaintext payload and handshake / close-alert records are
bare tokens.
-/

/-- A byte string, as a list of byte values. -/
def bytesOf (s : String) : List Nat :=
  s.toList.map Char.toNat

/-- Modelled from the spec: a record on the wire between the two TLS
engines.  `hs` is a handshake record (client hello or server reply),
`data` carries encrypted application bytes (payload kept in the clear,
since the cryptography is out of scope), `close` is the TLS close alert. -/
inductive Record where
  | hs
  | data (payload : List Nat)
  | close
deriving DecidableEq, Repr

/-- The plaintext carried by a record (empty for non-data records). -/
def Record.payload : Record → List Nat
  | .data bs => bs
  | _ => []

/-- The plaintext image of a record stream, in stream order. -/
def wirePlain (recs : List Record) : List Nat :=
  (recs.map Record.payload).flatten

/-- Engine-level error kinds surfaced by the model's TLS engine. -/
inductive SSLErr where
  | unexpectedEOF
  | handshakeFailure
deriving DecidableEq, Repr

/-- A connection-lost reason, as delivered to the wrapped application
protocol.  `connectionDone` is the clean close, `connectionLost` the
generic abnormal disconnect, `sslError` an error raised by the TLS
engine itself. -/
inductive Reason where
  | connectionDone
  | connectionLost (msg : String)
  | sslError (e : SSLErr)
deriving DecidableEq, Repr

/-- Whether a reason belongs to the generic "connection lost" class. -/
def Reason.isConnectionLostClass : Reason → Bool
  | .connectionLost _ => true
  | _ => false

/-- Modelled from the spec: the in-memory TLS engine handle (the external
collaborator equivalent to OpenSSL's memory-BIO mode).  It accepts
ciphertext and plaintext into separate buffers, drains available
ciphertext and plaintext, reports handshake completion, and raises a
stalled-condition signal (`send` returning `none`, the analogue of
`WantReadError`) when it needs more input before producing output. -/
structure TLSEngine where
  /-- Whether this engine plays the client role. -/
  isClient : Bool
  /-- How many plaintext bytes one `send` call accepts at most; the engine
  always accepts at least one byte when it is not stalled. -/
  limit : Nat
  /-- Handshake-complete flag. -/
  hsDone : Bool
  /-- Ciphertext-out buffer: records ready to be drained to the transport. -/
  out : List Record
  /-- Decrypted plaintext ready to be drained to the application. -/
  plainIn : List Nat
  /-- We have emitted our close alert. -/
  sentClose : Bool
  /-- We have received the peer's close alert. -/
  recvdClose : Bool
  /-- The receive BIO was shut down: no more ciphertext will ever arrive. -/
  eofReached : Bool
deriving DecidableEq, Repr

namespace TLSEngine

/-- Modelled from the spec: feed plaintext to the engine.  Before the
handshake has completed the engine is write-blocked-on-read and signals
the stalled condition (`none`, the `WantReadError` analogue).  Afterwards
it accepts a non-empty prefix of at most `limit` bytes (at least one) and
emits it as one data record into the ciphertext-out buffer, returning the
number of bytes accepted. -/
def send (e : TLSEngine) (bs : List Nat) : Option (Nat × TLSEngine) :=
  if e.hsDone then
    let n := min (max 1 e.limit) bs.length
    some (n, { e with out := e.out ++ [Record.data (bs.take n)] })
  else none

/-- Process one inbound record.  A handshake record completes the
handshake (the server additionally queues its reply); a data record is
decrypted into the plaintext buffer once the handshake is done; a close
alert is noted for the shutdown state machine. -/
def bioWriteOne (e : TLSEngine) : Record → TLSEngine
  | .hs =>
      if e.hsDone then e
      else if e.isClient then { e with hsDone := true }
      else { e with hsDone := true, out := e.out ++ [Record.hs] }
  | .data bs =>
      if e.hsDone then { e with plainIn := e.plainIn ++ bs } else e
  | .close => { e with recvdClose := true }

/-- Modelled from the spec: feed ciphertext (a batch of records) into the
engine's receive buffer, processing the records in arrival order. -/
def bioWrite (e : TLSEngine) (recs : List Record) : TLSEngine :=
  recs.foldl bioWriteOne e

/-- Modelled from the spec: ask the engine to emit its close alert.  The
returned flag reports whether the bidirectional TLS shutdown is complete
(our alert sent and the peer's alert received), mirroring
`OpenSSL.SSL.Connection.shutdown`. -/
def shutdown (e : TLSEngine) : Bool × TLSEngine :=
  let e' := if e.sentClose then e
            else { e with sentClose := true, out := e.out ++ [Record.close] }
  (e'.sentClose && e'.recvdClose, e')

/-- Start the handshake: the client emits its hello record. -/
def doHandshake (e : TLSEngine) : TLSEngine :=
  if e.isClient then { e with out := e.out ++ [Record.hs] } else e

/-- A fresh engine for the given role and per-send acceptance limit. -/
def init (isClient : Bool) (limit : Nat) : TLSEngine :=
  { isClient := isClient, limit := limit, hsDone := false, out := [],
    plainIn := [], sentClose := false, recvdClose := false,
    eofReached := false }

end TLSEngine

/-- A producer pause/resume/stop call as observed by the registered
application producer. -/
inductive MEv where
  | pause
  | resume
  | stop
deriving DecidableEq, Repr

/-- Modelled from the spec: the producer membrane (`_ProducerMembrane`).
It presents one push-producer control surface and coalesces pause/resume
triggers: the wrapped application producer's `pauseProducing` is invoked
only on the transition into the paused state, and `resumeProducing` only
on the transition out.  `history` records the calls actually forwarded to
the application producer. -/
structure ProducerMembrane where
  producerPaused : Bool
  history : List MEv
deriving DecidableEq, Repr

namespace ProducerMembrane

/-- Coalesced pause: forwards to the application producer only when not
already paused. -/
def pauseProducing (m : ProducerMembrane) : ProducerMembrane :=
  if m.producerPaused then m
  else { m with producerPaused := true, history := m.history ++ [MEv.pause] }

/-- Coalesced resume: forwards to the application producer only when
currently paused. -/
def resumeProducing (m : ProducerMembrane) : ProducerMembrane :=
  if m.producerPaused then
    { m with producerPaused := false, history := m.history ++ [MEv.resume] }
  else m

/-- A fresh, unpaused membrane with empty history. -/
def init : ProducerMembrane := { producerPaused := false, history := [] }

end ProducerMembrane

/-- Modelled from the spec: the adapter state (`TLSMemoryBIOProtocol`)
bridging one underlying transport to one application protocol, together
with the observable state of its collaborators: the underlying transport's
outbound record buffer and disconnect flag, and the wrapped application
protocol's received chunks and connection-lost notifications. -/
structure TLSMemoryBIOProtocol where
  engine : TLSEngine
  connected : Bool
  /-- Close-alert-in-progress flag; monotone once set. -/
  disconnecting : Bool
  /-- The TLS layer is gone: drop all further activity. -/
  lostTLSConnection : Bool
  /-- Application-level handshake evidence: set once decrypted application
  bytes have been delivered. -/
  handshakeDone : Bool
  /-- The engine reported the stalled condition on a plaintext write. -/
  writeBlockedOnRead : Bool
  /-- Pending plaintext chunks not yet accepted by the engine. -/
  appSendBuffer : List (List Nat)
  /-- The registered producer, behind its membrane (`none` if unregistered). -/
  producer : Option ProducerMembrane
  /-- Records written to the underlying transport and not yet delivered. -/
  transportOut : List Record
  /-- The underlying transport was told to disconnect. -/
  transportDisconnecting : Bool
  /-- The underlying transport itself has backpressure (it paused us). -/
  transportPaused : Bool
  /-- A close reason recorded by the TLS layer, to override the underlying
  transport's own reason when the connection finally goes away. -/
  reason : Option Reason
  /-- Chunks delivered to the wrapped application protocol, in order. -/
  received : List (List Nat)
  /-- Reasons delivered to the wrapped protocol's `connectionLost`. -/
  lostReasons : List Reason
  /-- How many times the TLS shutdown (close-alert emission) was initiated. -/
  shutdownCalls : Nat
  /-- Identity of this adapter (for transport-identity properties). -/
  selfId : Nat
  /-- Identity of the transport handed to the wrapped protocol. -/
  wrappedTransport : Option Nat
deriving DecidableEq, Repr

namespace TLSMemoryBIOProtocol

/-- Drain the engine's ciphertext-out buffer to the underlying transport
(models `_flushSendBIO`). -/
def flushSendBio (p : TLSMemoryBIOProtocol) : TLSMemoryBIOProtocol :=
  { p with engine := { p.engine with out := [] },
           transportOut := p.transportOut ++ p.engine.out }

/-- Modelled from the spec: initiate the TLS shutdown (`_shutdownTLS`):
instruct the engine to emit its close alert, flush remaining ciphertext,
and, when the engine reports the bidirectional shutdown complete, tell
the underlying transport to close. -/
def shutdownTLS (p : TLSMemoryBIOProtocol) : TLSMemoryBIOProtocol :=
  let r := p.engine.shutdown
  let p1 := flushSendBio { p with engine := r.2,
                                  shutdownCalls := p.shutdownCalls + 1 }
  if r.1 then { p1 with transportDisconnecting := true } else p1

/-- Modelled from the spec: the TLS layer is finished (`_tlsShutdownFinished`):
record the close reason (first one wins; an engine-level unexpected-EOF is
squashed into the generic connection-lost class), mark the TLS connection
lost, flush, and tell the underlying transport to disconnect.  The wrapped
protocol is *not* notified here. -/
def tlsShutdownFinished (p : TLSMemoryBIOProtocol) (r : Option Reason) :
    TLSMemoryBIOProtocol :=
  let r' := match r with
    | some (.sslError .unexpectedEOF) =>
        some (.connectionLost "Connection lost before close alert")
    | x => x
  let p1 := flushSendBio
    { p with reason := if p.reason = none then r' else p.reason,
             lostTLSConnection := true }
  { p1 with transportDisconnecting := true }

/-- Forward a pause trigger to the registered producer's membrane. -/
def pauseProducer (p : TLSMemoryBIOProtocol) : TLSMemoryBIOProtocol :=
  match p.producer with
  | none => p
  | some m => { p with producer := some m.pauseProducing }

/-- Forward a resume trigger to the registered producer's membrane. -/
def resumeProducer (p : TLSMemoryBIOProtocol) : TLSMemoryBIOProtocol :=
  match p.producer with
  | none => p
  | some m => { p with producer := some m.resumeProducing }

/-- Modelled from the spec: the stalled branch of a plaintext write — the
unsendable suffix is retained for retry, the connection is marked
write-blocked, and any registered producer is paused. -/
def blockWrite (p : TLSMemoryBIOProtocol) (bs : List Nat) :
    TLSMemoryBIOProtocol :=
  pauseProducer { p with writeBlockedOnRead := true,
                         appSendBuffer := p.appSendBuffer ++ [bs] }

/-- Modelled from the spec: the write loop of `_write`, with explicit
fuel (the engine accepts at least one byte per round when not stalled, so
one unit of fuel per byte plus one always suffices).  Feeds the plaintext
to the engine, chunk by chunk; every resulting record is flushed to the
transport; if the engine signals the stalled condition the remainder is
buffered and the producer paused. -/
def writeLoopFuel : Nat → TLSMemoryBIOProtocol → List Nat →
    TLSMemoryBIOProtocol
  | 0, p, _ => p
  | fuel + 1, p, bs =>
      if bs = [] then p
      else match p.engine.send bs with
        | none => blockWrite p bs
        | some (n, e) =>
            writeLoopFuel fuel (flushSendBio { p with engine := e })
              (bs.drop n)

/-- The write loop at its always-adequate fuel. -/
def writeLoop (p : TLSMemoryBIOProtocol) (bs : List Nat) :
    TLSMemoryBIOProtocol :=
  writeLoopFuel (bs.length + 1) p bs

/-- Modelled from the spec: `_write` — the write loop guarded by the
lost-TLS-connection flag. -/
def writeInternal (p : TLSMemoryBIOProtocol) (bs : List Nat) :
    TLSMemoryBIOProtocol :=
  if p.lostTLSConnection then p else p.writeLoop bs

/-- Modelled from the spec: the public `write`.  After `loseConnection`
has been called, writes are silently dropped unless a producer is still
registered (the tests pin this policy: writes issued between
`loseConnection` and producer unregistration still go through). -/
def write (p : TLSMemoryBIOProtocol) (bs : List Nat) :
    TLSMemoryBIOProtocol :=
  if p.disconnecting ∧ p.producer = none then p else p.writeInternal bs

/-- Modelled from the spec: `writeSequence` concatenates the chunks and
defers to `write`. -/
def writeSequence (p : TLSMemoryBIOProtocol) (bss : List (List Nat)) :
    TLSMemoryBIOProtocol :=
  p.write bss.flatten

/-- Modelled from the spec: graceful, locally initiated shutdown
(`loseConnection`).  Idempotent; sets the monotone `disconnecting` flag;
emits the close alert immediately only when no producer is registered and
no write is blocked. -/
def loseConnection (p : TLSMemoryBIOProtocol) : TLSMemoryBIOProtocol :=
  if p.disconnecting then p
  else
    let p1 := { p with disconnecting := true }
    if ¬p1.writeBlockedOnRead ∧ p1.producer = none then p1.shutdownTLS else p1

/-- Modelled from the spec: drain available plaintext to the application
protocol (`_flushReceiveBIO`): deliver any decrypted bytes as one
non-empty chunk; on the peer's close alert reply with our own and finish
the TLS layer; on end-of-stream without a close alert surface the
abnormal-disconnect error (engine handshake failure if the handshake never
completed); finally flush any response records. -/
def flushReceiveBio (p : TLSMemoryBIOProtocol) : TLSMemoryBIOProtocol :=
  let p1 :=
    if ¬p.lostTLSConnection ∧ p.engine.plainIn ≠ [] then
      { p with received := p.received ++ [p.engine.plainIn],
               engine := { p.engine with plainIn := [] },
               handshakeDone := true }
    else p
  let p2 :=
    if ¬p1.lostTLSConnection then
      if p1.engine.recvdClose then (p1.shutdownTLS).tlsShutdownFinished none
      else if p1.engine.eofReached then
        p1.tlsShutdownFinished (some (if p1.handshakeDone
          then .sslError .unexpectedEOF
          else .sslError .handshakeFailure))
      else p1
    else p1
  p2.flushSendBio

/-- Modelled from the spec: inbound ciphertext from the underlying
transport (`dataReceived`).  Feeds the records to the engine; if a write
was blocked, retries the buffered plaintext and, once unblocked, either
advances the shutdown (when disconnecting with no producer) or resumes
the producer; then drains plaintext to the application. -/
def dataReceived (p : TLSMemoryBIOProtocol) (recs : List Record) :
    TLSMemoryBIOProtocol :=
  let p1 := { p with engine := p.engine.bioWrite recs }
  let p2 :=
    if p1.writeBlockedOnRead then
      let buf := p1.appSendBuffer
      let q0 := { p1 with writeBlockedOnRead := false, appSendBuffer := [] }
      let q1 := buf.foldl writeInternal q0
      let q2 := if ¬q1.writeBlockedOnRead ∧ q1.disconnecting ∧
                   q1.producer = none then q1.shutdownTLS else q1
      if ¬q2.writeBlockedOnRead ∧ q2.producer ≠ none then q2.resumeProducer
      else q2
    else p1
  p2.flushReceiveBio

/-- Modelled from the spec: register a (streaming) producer behind a fresh
membrane.  Registering while one is already present is a programming
error (the adapter raises; the state is left unchanged). -/
def registerProducer (p : TLSMemoryBIOProtocol) : TLSMemoryBIOProtocol :=
  if p.lostTLSConnection then p
  else match p.producer with
    | some _ => p
    | none => { p with producer := some ProducerMembrane.init }

/-- Modelled from the spec: unregister the producer.  If called while
`disconnecting` is set and no plaintext is pending, this is the trigger
that advances the shutdown coordinator to emit the close alert. -/
def unregisterProducer (p : TLSMemoryBIOProtocol) : TLSMemoryBIOProtocol :=
  match p.producer with
  | none => p
  | some _ =>
      let p1 := { p with producer := none }
      if p1.disconnecting ∧ p1.appSendBuffer = [] then p1.shutdownTLS else p1

/-- The underlying transport reports backpressure: it pauses the producer
it sees, which is the membrane. -/
def transportPauseProducing (p : TLSMemoryBIOProtocol) :
    TLSMemoryBIOProtocol :=
  pauseProducer { p with transportPaused := true }

/-- The underlying transport drained its buffer and resumes the producer
it sees, which is the membrane. -/
def transportResumeProducing (p : TLSMemoryBIOProtocol) :
    TLSMemoryBIOProtocol :=
  resumeProducer { p with transportPaused := false }

/-- Modelled from the spec: the underlying transport's single terminal
closure notification (`connectionLost`).  On the first call the receive
side is shut down and drained, potentially classifying the disconnect;
the wrapped protocol is then notified with the TLS layer's recorded
reason if any, else with the transport's own reason. -/
def connectionLost (p : TLSMemoryBIOProtocol) (r : Reason) :
    TLSMemoryBIOProtocol :=
  let p1 :=
    if ¬p.lostTLSConnection then
      let q := flushReceiveBio
        { p with engine := { p.engine with eofReached := true } }
      { q with lostTLSConnection := true }
    else p
  { p1 with reason := none, connected := false,
            lostReasons := p1.lostReasons ++ [p1.reason.getD r] }

/-- Modelled from the spec: attach the adapter to an underlying transport
(`makeConnection`).  The wrapped protocol's transport reference is set to
the adapter itself (the `ProtocolWrapper` passes `self`), and the
handshake is kicked off and flushed. -/
def makeConnection (p : TLSMemoryBIOProtocol) (transportId : Nat) :
    TLSMemoryBIOProtocol :=
  let p1 := { p with connected := true, wrappedTransport := some p.selfId,
                     engine := p.engine.doHandshake }
  p1.flushSendBio

/-- A fresh adapter over a fresh engine. -/
def init (isClient : Bool) (limit : Nat) (selfId : Nat) :
    TLSMemoryBIOProtocol :=
  { engine := TLSEngine.init isClient limit, connected := false,
    disconnecting := false, lostTLSConnection := false,
    handshakeDone := false, writeBlockedOnRead := false,
    appSendBuffer := [], producer := none, transportOut := [],
    transportDisconnecting := false, transportPaused := false,
    reason := none, received := [], lostReasons := [], shutdownCalls := 0,
    selfId := selfId, wrappedTransport := none }

end TLSMemoryBIOProtocol

namespace TLSMemoryBIOProtocol

/-- Deliver everything the first endpoint has handed to its underlying
transport to the second endpoint, clearing the first endpoint's transport
buffer (one direction of the loopback pump used throughout the tests). -/
def transfer (src dst : TLSMemoryBIOProtocol) :
    TLSMemoryBIOProtocol × TLSMemoryBIOProtocol :=
  ({ src with transportOut := [] }, dst.dataReceived src.transportOut)

/-- One round of the test helper `flushTwoTLSProtocols`: pending client
bytes to the server, then pending server bytes back to the client. -/
def flushRound (c s : TLSMemoryBIOProtocol) :
    TLSMemoryBIOProtocol × TLSMemoryBIOProtocol :=
  let r1 := transfer c s
  let r2 := transfer r1.2 r1.1
  (r2.2, r2.1)

/-- The test helper `flushTwoTLSProtocols`: three rounds of exchange,
enough to pass all pending bytes back and forth. -/
def flushTwo (c s : TLSMemoryBIOProtocol) :
    TLSMemoryBIOProtocol × TLSMemoryBIOProtocol :=
  let r1 := flushRound c s
  let r2 := flushRound r1.1 r1.2
  flushRound r2.1 r2.2

/-- The client adapter of the write-before-handshake scenario after the
given chunks have been written (all before the handshake completes). -/
def clientAfterWrites (limit : Nat) (cs : List (List Nat)) :
    TLSMemoryBIOProtocol :=
  cs.foldl write ((init true limit 0).makeConnection 100)

/-- End-to-end write-before-handshake scenario: a client adapter is
attached, the chunks are written pre-handshake, and the loopback is pumped
(hello to the server, reply to the client — which replays its buffered
writes — and the resulting data records to the server).  Returns the final
client and server adapters. -/
def runScenario (limit : Nat) (cs : List (List Nat)) :
    TLSMemoryBIOProtocol × TLSMemoryBIOProtocol :=
  let c1 := clientAfterWrites limit cs
  let s0 := (init false limit 1).makeConnection 101
  let r1 := transfer c1 s0
  let r2 := transfer r1.2 r1.1
  let r3 := transfer r2.2 r2.1
  (r3.1, r3.2)

/-- The chunks the server's application protocol received in the
write-before-handshake scenario. -/
def scenarioReceived (limit : Nat) (cs : List (List Nat)) :
    List (List Nat) :=
  (runScenario limit cs).2.received

end TLSMemoryBIOProtocol

namespace TLSMemoryBIOProtocol

/-- Append records to the underlying transport's buffer (the canonical
shape of a successful post-handshake write's effect). -/
def pushRecords (p : TLSMemoryBIOProtocol) (recs : List Record) :
    TLSMemoryBIOProtocol :=
  { p with transportOut := p.transportOut ++ recs }

/-- Plaintext already handed to the wire (transport buffer plus the
engine's not-yet-flushed ciphertext), in order. -/
def pendingWire (p : TLSMemoryBIOProtocol) : List Nat :=
  wirePlain (p.transportOut ++ p.engine.out)

/-- All plaintext the adapter has accepted and not yet abandoned: bytes on
the wire followed by the buffered chunks awaiting the engine. -/
def pendingPlain (p : TLSMemoryBIOProtocol) : List Nat :=
  p.pendingWire ++ p.appSendBuffer.flatten

/-- Calls forwarded so far to the registered application producer. -/
def membraneHistory (p : TLSMemoryBIOProtocol) : List MEv :=
  match p.producer with
  | none => []
  | some m => m.history

/-- Whether the membrane (and hence the application producer) is paused. -/
def membranePaused (p : TLSMemoryBIOProtocol) : Bool :=
  match p.producer with
  | none => false
  | some m => m.producerPaused

/-- Whether some stall source is active: engine write-blocked-on-read or
underlying-transport backpressure. -/
def stallActive (p : TLSMemoryBIOProtocol) : Bool :=
  p.writeBlockedOnRead || p.transportPaused

end TLSMemoryBIOProtocol

/-- An operation on the adapter (its full transport-facing surface plus
the notifications it consumes). -/
inductive TLSOp where
  | write (bs : List Nat)
  | writeSequence (bss : List (List Nat))
  | dataReceived (recs : List Record)
  | loseConnection
  | registerProducer
  | unregisterProducer
  | transportPauseProducing
  | transportResumeProducing
  | tlsShutdownFinished (r : Option Reason)
  | connectionLost (r : Reason)
  | makeConnection (t : Nat)
deriving DecidableEq, Repr

/-- Apply one operation to the adapter. -/
def TLSMemoryBIOProtocol.applyOp (p : TLSMemoryBIOProtocol) :
    TLSOp → TLSMemoryBIOProtocol
  | .write bs => p.write bs
  | .writeSequence bss => p.writeSequence bss
  | .dataReceived recs => p.dataReceived recs
  | .loseConnection => p.loseConnection
  | .registerProducer => p.registerProducer
  | .unregisterProducer => p.unregisterProducer
  | .transportPauseProducing => p.transportPauseProducing
  | .transportResumeProducing => p.transportResumeProducing
  | .tlsShutdownFinished r => p.tlsShutdownFinished r
  | .connectionLost r => p.connectionLost r
  | .makeConnection t => p.makeConnection t

/-- An adapter operation other than the underlying transport's terminal
closure notification. -/
inductive LiveOp where
  | write (bs : List Nat)
  | writeSequence (bss : List (List Nat))
  | dataReceived (recs : List Record)
  | loseConnection
  | registerProducer
  | unregisterProducer
  | transportPauseProducing
  | transportResumeProducing
  | tlsShutdownFinished (r : Option Reason)
  | makeConnection (t : Nat)
deriving DecidableEq, Repr

/-- Apply one non-closure operation to the adapter. -/
def TLSMemoryBIOProtocol.applyLive (p : TLSMemoryBIOProtocol) :
    LiveOp → TLSMemoryBIOProtocol
  | .write bs => p.write bs
  | .writeSequence bss => p.writeSequence bss
  | .dataReceived recs => p.dataReceived recs
  | .loseConnection => p.loseConnection
  | .registerProducer => p.registerProducer
  | .unregisterProducer => p.unregisterProducer
  | .transportPauseProducing => p.transportPauseProducing
  | .transportResumeProducing => p.transportResumeProducing
  | .tlsShutdownFinished r => p.tlsShutdownFinished r
  | .makeConnection t => p.makeConnection t

/-- An operation that can trigger the producer membrane's stall sources
while a registration is in place: plaintext writes (which may hit the
engine's write-blocked-on-read condition), inbound data (which may clear
it), and the underlying transport's own pause/resume. -/
inductive TriggerOp where
  | write (bs : List Nat)
  | writeSequence (bss : List (List Nat))
  | dataReceived (recs : List Record)
  | transportPauseProducing
  | transportResumeProducing
deriving DecidableEq, Repr

/-- Apply one stall-trigger operation to the adapter. -/
def TLSMemoryBIOProtocol.applyTrigger (p : TLSMemoryBIOProtocol) :
    TriggerOp → TLSMemoryBIOProtocol
  | .write bs => p.write bs
  | .writeSequence bss => p.writeSequence bss
  | .dataReceived recs => p.dataReceived recs
  | .transportPauseProducing => p.transportPauseProducing
  | .transportResumeProducing => p.transportResumeProducing

namespace TLSMemoryBIOProtocol

/-- The `loseConnectionWithProducer` scenario of the test suite: handshake,
register a streaming producer, write `"x "`, call `loseConnection`, keep
writing (`"hello"`, `" "`, `"world"`), unregister the producer, then try
two more writes, flushing the loopback in between.  Returns the final
client and server adapters. -/
def loseConnScenario : TLSMemoryBIOProtocol × TLSMemoryBIOProtocol :=
  let c0 := ((init true 1000 0).makeConnection 100).registerProducer
  let s0 := (init false 1000 1).makeConnection 101
  let f1 := flushTwo c0 s0
  let c2 := (f1.1.write (bytesOf "x ")).loseConnection
  let f2 := flushTwo c2 f1.2
  let c3 := (f2.1.write (bytesOf "hello")).writeSequence
    [bytesOf " ", bytesOf "world"]
  let c4 := c3.unregisterProducer
  let c5 := (c4.write (bytesOf "wont")).writeSequence [bytesOf "wont2"]
  flushTwo c5 f2.2

/-- The both-stall-sources scenario of the test suite
(`test_streamingProducerBothTransportsDecideToPause`, rearranged over the
adapter's public surface): with a producer registered, the underlying
transport pauses, a pre-handshake write then hits the engine's
write-blocked-on-read condition (a coalesced second pause trigger), and
the underlying transport resumes while the engine is still blocked. -/
def bothPauseScenario : TLSMemoryBIOProtocol :=
  let p0 := ((init true 1000 0).makeConnection 100).registerProducer
  let p1 := p0.transportPauseProducing
  let p2 := p1.write (bytesOf "hello")
  p2.transportResumeProducing

/-- The disorderly-shutdown scenario: the underlying transport of a
freshly connected client closes before the handshake produced anything
and before any close alert. -/
def disorderlyScenario : TLSMemoryBIOProtocol :=
  ((init true 1000 0).makeConnection 100).connectionLost Reason.connectionDone

end TLSMemoryBIOProtocol

/-- Error values raised by application-supplied pull producers or by a
consumer while unregistering. -/
inductive PullErr where
  | zeroDivisionError
  | runtimeError
deriving DecidableEq, Repr

/-- A log entry emitted by the pull-to-push wrapper's two-stage error
policy. -/
inductive LogEntry where
  | producerFailed (e : PullErr)
  | unregisterFailed (e : PullErr)
deriving DecidableEq, Repr

/-- One behaviour step of a wrapped pull producer: produce a chunk for the
consumer, or raise. -/
inductive PullAct where
  | produce (chunk : List Nat)
  | failPull (e : PullErr)
deriving DecidableEq, Repr

/-- Modelled from the spec: the pull-to-push wrapper (`_PullToPush`):
`finished` marks completion or stopping, `taskStopped` whether its
cooperative task has been stopped. -/
structure PullToPush where
  finished : Bool
  taskStopped : Bool
deriving DecidableEq, Repr

namespace PullToPush

/-- Modelled from the spec: `stopStreaming` — safe to call repeatedly;
the first call marks the wrapper finished and stops the cooperative
task, later calls change nothing. -/
def stopStreaming (s : PullToPush) : PullToPush :=
  if s.finished then s else { finished := true, taskStopped := true }

/-- A freshly started wrapper. -/
def init : PullToPush := { finished := false, taskStopped := false }

end PullToPush

/-- Modelled from the spec: a pull-to-push wrapper driving a wrapped pull
producer (its remaining behaviour `acts`) against a consumer: the
consumer's written chunks, its registration state, whether the consumer's
unregister itself raises, and the error log. -/
structure PullSys where
  acts : List PullAct
  wrapper : PullToPush
  consumerWritten : List (List Nat)
  consumerRegistered : Bool
  consumerUnregRaises : Bool
  logged : List LogEntry
deriving DecidableEq, Repr

namespace PullSys

/-- Modelled from the spec: one iteration of the wrapper's cooperative
pull loop.  A successful pull writes its chunk to the consumer.  If the
pull raises, the exception is caught (never propagated to the consumer),
logged, and the wrapper unregisters from the consumer — which stops the
streaming; if the consumer's `unregisterProducer` itself raises, that
second error is logged separately and the wrapper still marks itself
finished. -/
def step (s : PullSys) : PullSys :=
  if s.wrapper.finished || s.wrapper.taskStopped then s
  else match s.acts with
    | [] => s
    | act :: rest =>
        let s1 := { s with acts := rest }
        match act with
        | .produce c =>
            { s1 with consumerWritten := s1.consumerWritten ++ [c] }
        | .failPull e =>
            let s2 :=
              { s1 with logged := s1.logged ++ [LogEntry.producerFailed e] }
            if s2.consumerUnregRaises then
              { s2 with logged := s2.logged ++
                          [LogEntry.unregisterFailed PullErr.runtimeError],
                        wrapper := { s2.wrapper with finished := true } }
            else
              { s2 with consumerRegistered := false,
                        wrapper := s2.wrapper.stopStreaming }

/-- Iterate the cooperative loop for the given number of scheduler ticks. -/
def run : Nat → PullSys → PullSys
  | 0, s => s
  | n + 1, s => run n s.step

/-- A fresh system: live wrapper, registered producer, empty consumer. -/
def init (acts : List PullAct) (unregRaises : Bool) : PullSys :=
  { acts := acts, wrapper := PullToPush.init, consumerWritten := [],
    consumerRegistered := true, consumerUnregRaises := unregRaises,
    logged := [] }

end PullSys

namespace TLSMemoryBIOProtocol

/-- The client adapter's states along the write-before-handshake scenario:
attached, hello already flushed to the transport, with the given handshake
flag, write-blocked flag, pending buffer and transport buffer. -/
def clientState (limit : Nat) (hs blocked : Bool) (buf : List (List Nat))
    (tout : List Record) : TLSMemoryBIOProtocol :=
  { engine := { isClient := true, limit := limit, hsDone := hs, out := [],
                plainIn := [], sentClose := false, recvdClose := false,
                eofReached := false },
    connected := true, disconnecting := false, lostTLSConnection := false,
    handshakeDone := false, writeBlockedOnRead := blocked,
    appSendBuffer := buf, producer := none, transportOut := tout,
    transportDisconnecting := false, transportPaused := false,
    reason := none, received := [], lostReasons := [], shutdownCalls := 0,
    selfId := 0, wrappedTransport := some 0 }

/-- The server adapter's states along the write-before-handshake scenario. -/
def serverState (limit : Nat) (hs : Bool) (tout : List Record)
    (recv : List (List Nat)) (hsApp : Bool) : TLSMemoryBIOProtocol :=
  { engine := { isClient := false, limit := limit, hsDone := hs, out := [],
                plainIn := [], sentClose := false, recvdClose := false,
                eofReached := false },
    connected := true, disconnecting := false, lostTLSConnection := false,
    handshakeDone := hsApp, writeBlockedOnRead := false,
    appSendBuffer := [], producer := none, transportOut := tout,
    transportDisconnecting := false, transportPaused := false,
    reason := none, received := recv, lostReasons := [], shutdownCalls := 0,
    selfId := 1, wrappedTransport := some 1 }

end TLSMemoryBIOProtocol

namespace TLSMemoryBIOProtocol

/-- How many pause calls the application producer has received. -/
def pauseCount (p : TLSMemoryBIOProtocol) : Nat :=
  (membraneHistory p).count MEv.pause

/-- How many resume calls the application producer has received. -/
def resumeCount (p : TLSMemoryBIOProtocol) : Nat :=
  (membraneHistory p).count MEv.resume

/-- A step that may only pause the membrane: the application producer
receives one pause call exactly on the transition into the paused state,
no resume call, and pausedness is monotone across the step. -/
def PauseStep (p q : TLSMemoryBIOProtocol) : Prop :=
  q.pauseCount = p.pauseCount +
    (if p.membranePaused = false ∧ q.membranePaused = true then 1 else 0) ∧
  q.resumeCount = p.resumeCount ∧
  (p.membranePaused = true → q.membranePaused = true)

/-- A step that may only resume the membrane: one resume call exactly on
the transition out of the paused state, no pause call, and unpausedness
is preserved. -/
def ResumeStep (p q : TLSMemoryBIOProtocol) : Prop :=
  q.pauseCount = p.pauseCount ∧
  q.resumeCount = p.resumeCount +
    (if p.membranePaused = true ∧ q.membranePaused = false then 1 else 0) ∧
  (p.membranePaused = false → q.membranePaused = false)

/-- The coalescing contract of the producer membrane across one adapter
operation: the application producer's pauseProducing is invoked exactly
once per transition into the paused state — never once per trigger — and
resumeProducing exactly once per transition out. -/
def CoalescedStep (p q : TLSMemoryBIOProtocol) : Prop :=
  q.pauseCount = p.pauseCount +
    (if p.membranePaused = false ∧ q.membranePaused = true then 1 else 0) ∧
  q.resumeCount = p.resumeCount +
    (if p.membranePaused = true ∧ q.membranePaused = false then 1 else 0)

/-- Invariant of the buffered-write replay loop: it may only pause the
membrane, blockedness is monotone, and if the loop ends unblocked it
never touched the membrane. -/
def ReplayStep (p q : TLSMemoryBIOProtocol) : Prop :=
  PauseStep p q ∧
  (p.writeBlockedOnRead = true → q.writeBlockedOnRead = true) ∧
  (q.writeBlockedOnRead = false → q.producer = p.producer)

end TLSMemoryBIOProtocol

theorem TLSEngine.eta_out (e : TLSEngine) (h : e.out = []) :
    ({ e with out := [] } : TLSEngine) = e := by
  cases e
  simp_all

theorem TLSEngine.eta_hs (e : TLSEngine) (h1 : e.hsDone = true)
    (h2 : e.out = []) :
    ({ isClient := e.isClient, limit := e.limit, hsDone := true, out := [],
       plainIn := e.plainIn, sentClose := e.sentClose,
       recvdClose := e.recvdClose, eofReached := e.eofReached } :
       TLSEngine) = e := by
  cases e
  simp_all

namespace TLSMemoryBIOProtocol

theorem writeLoopFuel_succ (fuel : Nat) (p : TLSMemoryBIOProtocol)
    (bs : List Nat) :
    writeLoopFuel (fuel + 1) p bs =
      if bs = [] then p
      else match p.engine.send bs with
        | none => blockWrite p bs
        | some (n, e) =>
            writeLoopFuel fuel (flushSendBio { p with engine := e })
              (bs.drop n) := rfl

theorem writeLoop_nil (p : TLSMemoryBIOProtocol) : p.writeLoop [] = p := rfl

theorem pushRecords_nil (p : TLSMemoryBIOProtocol) : p.pushRecords [] = p := by
  cases p
  simp [pushRecords]

theorem pushRecords_pushRecords (p : TLSMemoryBIOProtocol)
    (r1 r2 : List Record) :
    (p.pushRecords r1).pushRecords r2 = p.pushRecords (r1 ++ r2) := by
  simp [pushRecords]

theorem writeLoopFuel_stalled (fuel : Nat) (p : TLSMemoryBIOProtocol)
    (bs : List Nat) (h : p.engine.hsDone = false) (hbs : bs ≠ []) :
    writeLoopFuel (fuel + 1) p bs = blockWrite p bs := by
  have hsend : p.engine.send bs = none := by
    simp [TLSEngine.send, h]
  rw [writeLoopFuel_succ, if_neg hbs, hsend]

theorem writeLoop_stalled (p : TLSMemoryBIOProtocol) (bs : List Nat)
    (h : p.engine.hsDone = false) (hbs : bs ≠ []) :
    p.writeLoop bs = blockWrite p bs :=
  writeLoopFuel_stalled bs.length p bs h hbs

theorem writeLoopFuel_hsDone_aux :
    ∀ (fuel : Nat) (p : TLSMemoryBIOProtocol) (bs : List Nat),
    bs.length < fuel → p.engine.hsDone = true → p.engine.out = [] →
    ∃ chunks : List (List Nat), chunks.flatten = bs ∧
      writeLoopFuel fuel p bs = p.pushRecords (chunks.map Record.data) := by
  intro fuel
  induction fuel with
  | zero =>
      intro p bs hlen _ _
      exact absurd hlen (Nat.not_lt_zero _)
  | succ fuel ih =>
      intro p bs hlen hhs hout
      rw [writeLoopFuel_succ]
      by_cases hbs : bs = []
      · subst hbs
        rw [if_pos rfl]
        exact ⟨[], rfl, by rw [List.map_nil, pushRecords_nil]⟩
      · rw [if_neg hbs]
        split
        · rename_i hsend
          rw [TLSEngine.send] at hsend
          simp [hhs] at hsend
        · rename_i n e hsend
          rw [TLSEngine.send] at hsend
          simp only [hhs, if_true, Option.some.injEq, Prod.mk.injEq] at hsend
          obtain ⟨hn, he⟩ := hsend
          have hpos : 0 < bs.length := List.length_pos.mpr hbs
          have h1 : 1 ≤ n := by
            rw [← hn]
            exact le_min (le_max_left 1 p.engine.limit) hpos
          have hflush : flushSendBio { p with engine := e } =
              p.pushRecords [Record.data (bs.take n)] := by
            rw [← he, flushSendBio]
            simp [pushRecords, TLSMemoryBIOProtocol.mk.injEq,
                  TLSEngine.mk.injEq, hout, hhs, hn]
            exact TLSEngine.eta_hs p.engine hhs hout
          rw [hflush]
          have hlen' : (bs.drop n).length < fuel := by
            simp only [List.length_drop]
            omega
          obtain ⟨chunks, hflat, heq⟩ :=
            ih (p.pushRecords [Record.data (bs.take n)]) (bs.drop n) hlen'
              (by simpa [pushRecords] using hhs)
              (by simpa [pushRecords] using hout)
          refine ⟨bs.take n :: chunks, ?_, ?_⟩
          · simp [hflat]
          · rw [heq, pushRecords_pushRecords]
            simp

end TLSMemoryBIOProtocol

namespace TLSMemoryBIOProtocol

theorem writeLoop_hsDone (p : TLSMemoryBIOProtocol) (bs : List Nat)
    (hhs : p.engine.hsDone = true) (hout : p.engine.out = []) :
    ∃ chunks : List (List Nat), chunks.flatten = bs ∧
      p.writeLoop bs = p.pushRecords (chunks.map Record.data) :=
  writeLoopFuel_hsDone_aux (bs.length + 1) p bs (Nat.lt_succ_self _) hhs hout

theorem writeInternal_hsDone (p : TLSMemoryBIOProtocol) (bs : List Nat)
    (hl : p.lostTLSConnection = false)
    (hhs : p.engine.hsDone = true) (hout : p.engine.out = []) :
    ∃ chunks : List (List Nat), chunks.flatten = bs ∧
      p.writeInternal bs = p.pushRecords (chunks.map Record.data) := by
  rw [writeInternal, if_neg (by simp [hl])]
  exact writeLoop_hsDone p bs hhs hout

theorem replay_hsDone : ∀ (bufs : List (List Nat)) (p : TLSMemoryBIOProtocol),
    p.lostTLSConnection = false → p.engine.hsDone = true →
    p.engine.out = [] →
    ∃ chunks : List (List Nat), chunks.flatten = bufs.flatten ∧
      bufs.foldl writeInternal p = p.pushRecords (chunks.map Record.data) := by
  intro bufs
  induction bufs with
  | nil =>
      intro p _ _ _
      exact ⟨[], rfl, by rw [List.foldl_nil, List.map_nil, pushRecords_nil]⟩
  | cons c bufs ih =>
      intro p hl hhs hout
      rw [List.foldl_cons]
      obtain ⟨ch1, hf1, he1⟩ := writeInternal_hsDone p c hl hhs hout
      rw [he1]
      obtain ⟨ch2, hf2, he2⟩ := ih (p.pushRecords (ch1.map Record.data))
        (by simpa [pushRecords] using hl)
        (by simpa [pushRecords] using hhs)
        (by simpa [pushRecords] using hout)
      refine ⟨ch1 ++ ch2, ?_, ?_⟩
      · simp [hf1, hf2]
      · rw [he2, pushRecords_pushRecords, List.map_append]

theorem pauseProducer_none (p : TLSMemoryBIOProtocol)
    (hp : p.producer = none) : p.pauseProducer = p := by
  rw [pauseProducer, hp]

theorem write_prehs (p : TLSMemoryBIOProtocol) (c : List Nat)
    (hhs : p.engine.hsDone = false) (hd : p.disconnecting = false)
    (hl : p.lostTLSConnection = false) (hp : p.producer = none) :
    p.write c = if c = [] then p
      else { p with writeBlockedOnRead := true,
                    appSendBuffer := p.appSendBuffer ++ [c] } := by
  rw [write, if_neg (by simp [hd]), writeInternal, if_neg (by simp [hl])]
  by_cases hc : c = []
  · subst hc
    rw [writeLoop_nil, if_pos rfl]
  · rw [writeLoop_stalled p c hhs hc, if_neg hc, blockWrite, pauseProducer]
    simp [hp]

theorem writes_prehs : ∀ (cs : List (List Nat)) (p : TLSMemoryBIOProtocol),
    p.engine.hsDone = false → p.disconnecting = false →
    p.lostTLSConnection = false → p.producer = none →
    cs.foldl write p =
      { p with writeBlockedOnRead :=
                 p.writeBlockedOnRead || cs.any (fun c => !c.isEmpty),
               appSendBuffer :=
                 p.appSendBuffer ++ cs.filter (fun c => !c.isEmpty) } := by
  intro cs
  induction cs with
  | nil =>
      intro p _ _ _ _
      simp
  | cons c cs ih =>
      intro p hhs hd hl hp
      rw [List.foldl_cons, write_prehs p c hhs hd hl hp]
      by_cases hc : c = []
      · rw [if_pos hc, ih p hhs hd hl hp]
        subst hc
        simp
      · rw [if_neg hc]
        rw [ih _ (by simpa using hhs) (by simpa using hd)
              (by simpa using hl) (by simpa using hp)]
        have hcne : (!c.isEmpty) = true := by
          simp [List.isEmpty_iff, hc]
        simp [List.filter_cons, List.any_cons, hcne]

end TLSMemoryBIOProtocol

theorem TLSEngine.bioWrite_data :
    ∀ (chunks : List (List Nat)) (e : TLSEngine), e.hsDone = true →
    e.bioWrite (chunks.map Record.data) =
      { e with plainIn := e.plainIn ++ chunks.flatten } := by
  intro chunks
  induction chunks with
  | nil =>
      intro e _
      cases e
      simp [TLSEngine.bioWrite]
  | cons c chunks ih =>
      intro e hhs
      rw [List.map_cons]
      have hstep : e.bioWriteOne (Record.data c) =
          { e with plainIn := e.plainIn ++ c } := by
        rw [TLSEngine.bioWriteOne]
        simp [hhs]
      have : e.bioWrite (Record.data c :: chunks.map Record.data) =
          (e.bioWriteOne (Record.data c)).bioWrite (chunks.map Record.data) := by
        rw [TLSEngine.bioWrite, TLSEngine.bioWrite, List.foldl_cons]
      rw [this, hstep, ih _ (by simpa using hhs)]
      simp

theorem flatten_filter_nonempty (cs : List (List Nat)) :
    (cs.filter (fun c => !c.isEmpty)).flatten = cs.flatten := by
  induction cs with
  | nil => rfl
  | cons c cs ih =>
      by_cases hc : c = []
      · subst hc
        simp [List.filter_cons, ih]
      · have hcne : (!c.isEmpty) = true := by simp [List.isEmpty_iff, hc]
        simp [List.filter_cons, hcne, ih]

namespace TLSMemoryBIOProtocol

theorem flushSendBio_out_nil (p : TLSMemoryBIOProtocol)
    (h : p.engine.out = []) : p.flushSendBio = p := by
  rw [flushSendBio, TLSEngine.eta_out p.engine h]
  simp [h]

end TLSMemoryBIOProtocol

namespace TLSMemoryBIOProtocol

theorem dataReceived_hs_blocked (p : TLSMemoryBIOProtocol)
    (hic : p.engine.isClient = true) (hhs : p.engine.hsDone = false)
    (hb : p.writeBlockedOnRead = true) (hl : p.lostTLSConnection = false)
    (hd : p.disconnecting = false) (hp : p.producer = none)
    (hout : p.engine.out = []) (hpin : p.engine.plainIn = [])
    (hrc : p.engine.recvdClose = false) (heo : p.engine.eofReached = false) :
    ∃ chunks : List (List Nat), chunks.flatten = p.appSendBuffer.flatten ∧
      p.dataReceived [Record.hs] =
        { p with engine := { p.engine with hsDone := true },
                 writeBlockedOnRead := false, appSendBuffer := [],
                 transportOut := p.transportOut ++ chunks.map Record.data } := by
  obtain ⟨chunks, hflat, hrepl⟩ := replay_hsDone p.appSendBuffer
    { p with engine := { p.engine with hsDone := true },
             writeBlockedOnRead := false, appSendBuffer := [] }
    hl rfl hout
  refine ⟨chunks, hflat, ?_⟩
  have hbw : p.engine.bioWrite [Record.hs] = { p.engine with hsDone := true } := by
    simp [TLSEngine.bioWrite, TLSEngine.bioWriteOne, hhs, hic]
  simp only [dataReceived, hbw, hb]
  simp only [if_true]
  rw [hrepl]
  simp [pushRecords, flushReceiveBio, flushSendBio, hd, hp, hl, hpin, hrc,
        heo, hout, TLSMemoryBIOProtocol.mk.injEq, TLSEngine.mk.injEq]

end TLSMemoryBIOProtocol

theorem TLSEngine.eta_plainIn (e : TLSEngine) (h : e.plainIn = []) :
    ({ e with plainIn := [] } : TLSEngine) = e := by
  cases e
  simp_all

theorem any_nonempty_eq_false {cs : List (List Nat)}
    (h : cs.any (fun c => !c.isEmpty) = false) : cs.flatten = [] := by
  induction cs with
  | nil => rfl
  | cons c cs ih =>
      simp only [List.any_cons, Bool.or_eq_false_iff] at h
      have hc : c = [] := by
        have := h.1
        simpa [List.isEmpty_iff] using this
      simp [hc, ih h.2]

theorem any_nonempty_eq_true {cs : List (List Nat)}
    (h : cs.any (fun c => !c.isEmpty) = true) : cs.flatten ≠ [] := by
  induction cs with
  | nil => simp at h
  | cons c cs ih =>
      simp only [List.any_cons, Bool.or_eq_true] at h
      intro hcontr
      rw [List.flatten_cons, List.append_eq_nil] at hcontr
      rcases h with h | h
      · have hc : c ≠ [] := by simpa [List.isEmpty_iff] using h
        exact hc hcontr.1
      · exact ih h hcontr.2

namespace TLSMemoryBIOProtocol

theorem dataReceived_hs_unblocked (p : TLSMemoryBIOProtocol)
    (hic : p.engine.isClient = true) (hhs : p.engine.hsDone = false)
    (hb : p.writeBlockedOnRead = false) (hl : p.lostTLSConnection = false)
    (hout : p.engine.out = []) (hpin : p.engine.plainIn = [])
    (hrc : p.engine.recvdClose = false) (heo : p.engine.eofReached = false) :
    p.dataReceived [Record.hs] =
      { p with engine := { p.engine with hsDone := true } } := by
  have hbw : p.engine.bioWrite [Record.hs] =
      { p.engine with hsDone := true } := by
    simp [TLSEngine.bioWrite, TLSEngine.bioWriteOne, hhs, hic]
  simp only [dataReceived, hbw, hb]
  simp [flushReceiveBio, flushSendBio, hl, hpin, hrc, heo, hout,
        TLSMemoryBIOProtocol.mk.injEq, TLSEngine.mk.injEq]

theorem dataReceived_data (p : TLSMemoryBIOProtocol)
    (chunks : List (List Nat))
    (hhs : p.engine.hsDone = true) (hb : p.writeBlockedOnRead = false)
    (hl : p.lostTLSConnection = false) (hpin : p.engine.plainIn = [])
    (hrc : p.engine.recvdClose = false) (heo : p.engine.eofReached = false)
    (hout : p.engine.out = []) :
    p.dataReceived (chunks.map Record.data) =
      if chunks.flatten = [] then p
      else { p with received := p.received ++ [chunks.flatten],
                    handshakeDone := true } := by
  obtain ⟨e, f01, f02, f03, f04, f05, f06, f07, f08, f09, f10, f11, f12,
          f13, f14, f15, f16⟩ := p
  obtain ⟨g1, g2, g3, g4, g5, g6, g7, g8⟩ := e
  simp only at hhs hb hl hpin hrc heo hout
  subst hhs hb hl hpin hrc heo hout
  by_cases hfl : chunks.flatten = []
  · simp [dataReceived, TLSEngine.bioWrite_data, flushReceiveBio,
          flushSendBio, hfl]
  · simp [dataReceived, TLSEngine.bioWrite_data, flushReceiveBio,
          flushSendBio, hfl]

end TLSMemoryBIOProtocol

namespace TLSMemoryBIOProtocol

theorem clientAfterWrites_eq (L : Nat) (cs : List (List Nat)) :
    clientAfterWrites L cs =
      clientState L false (cs.any (fun c => !c.isEmpty))
        (cs.filter (fun c => !c.isEmpty)) [Record.hs] := by
  rw [clientAfterWrites]
  rw [writes_prehs cs ((init true L 0).makeConnection 100) rfl rfl rfl rfl]
  simp [init, makeConnection, flushSendBio, TLSEngine.init,
        TLSEngine.doHandshake, clientState]

theorem serverHello_eq (L : Nat) :
    ((init false L 1).makeConnection 101).dataReceived [Record.hs] =
      serverState L true [Record.hs] [] false := rfl

theorem clientState_transportOut (L : Nat) (hs b : Bool)
    (buf : List (List Nat)) (t : List Record) :
    (clientState L hs b buf t).transportOut = t := rfl

theorem serverState_transportOut (L : Nat) (hs : Bool) (t : List Record)
    (r : List (List Nat)) (a : Bool) :
    (serverState L hs t r a).transportOut = t := rfl

theorem clientState_clear (L : Nat) (hs b : Bool) (buf : List (List Nat))
    (t : List Record) :
    ({ clientState L hs b buf t with transportOut := [] } :
      TLSMemoryBIOProtocol) = clientState L hs b buf [] := rfl

theorem serverState_clear (L : Nat) (hs : Bool) (t : List Record)
    (r : List (List Nat)) (a : Bool) :
    ({ serverState L hs t r a with transportOut := [] } :
      TLSMemoryBIOProtocol) = serverState L hs [] r a := rfl

theorem runScenario_received (L : Nat) (cs : List (List Nat)) :
    (runScenario L cs).2.received =
      if cs.flatten = [] then [] else [cs.flatten] := by
  simp only [runScenario, transfer]
  rw [clientAfterWrites_eq, clientState_transportOut, serverHello_eq,
      clientState_clear, serverState_transportOut, serverState_clear]
  by_cases hany : cs.any (fun c => !c.isEmpty) = true
  · obtain ⟨chunks, hflat, heq⟩ := dataReceived_hs_blocked
      (clientState L false (cs.any (fun c => !c.isEmpty))
        (cs.filter (fun c => !c.isEmpty)) []) rfl rfl hany rfl rfl rfl rfl
      rfl rfl rfl
    rw [heq]
    simp only [clientState_transportOut, List.nil_append]
    rw [dataReceived_data (serverState L true [] [] false) chunks rfl rfl rfl
          rfl rfl rfl rfl]
    have hflat' : chunks.flatten = cs.flatten := by
      rw [hflat]
      simp only [clientState]
      exact flatten_filter_nonempty cs
    have hne : chunks.flatten ≠ [] := by
      rw [hflat']
      exact any_nonempty_eq_true hany
    rw [if_neg hne, if_neg (any_nonempty_eq_true hany)]
    simp [serverState, hflat']
  · have hb : cs.any (fun c => !c.isEmpty) = false := by
      revert hany
      cases cs.any (fun c => !c.isEmpty) <;> simp
    rw [hb]
    rw [dataReceived_hs_unblocked
          (clientState L false false (cs.filter (fun c => !c.isEmpty)) [])
          rfl rfl rfl rfl rfl rfl rfl rfl]
    rw [if_pos (any_nonempty_eq_false hb)]
    simp only [clientState_transportOut]
    rfl

end TLSMemoryBIOProtocol

namespace TLSMemoryBIOProtocol

theorem flushSendBio_disconnecting (p : TLSMemoryBIOProtocol) :
    p.flushSendBio.disconnecting = p.disconnecting := rfl

theorem flushSendBio_lostReasons (p : TLSMemoryBIOProtocol) :
    p.flushSendBio.lostReasons = p.lostReasons := rfl

theorem shutdownTLS_disconnecting (p : TLSMemoryBIOProtocol) :
    p.shutdownTLS.disconnecting = p.disconnecting := by
  rw [shutdownTLS]
  split <;> rfl

theorem shutdownTLS_lostReasons (p : TLSMemoryBIOProtocol) :
    p.shutdownTLS.lostReasons = p.lostReasons := by
  rw [shutdownTLS]
  split <;> rfl

theorem tlsShutdownFinished_disconnecting (p : TLSMemoryBIOProtocol)
    (r : Option Reason) :
    (p.tlsShutdownFinished r).disconnecting = p.disconnecting := rfl

theorem tlsShutdownFinished_lostReasons (p : TLSMemoryBIOProtocol)
    (r : Option Reason) :
    (p.tlsShutdownFinished r).lostReasons = p.lostReasons := rfl

theorem pauseProducer_disconnecting (p : TLSMemoryBIOProtocol) :
    p.pauseProducer.disconnecting = p.disconnecting := by
  cases hp : p.producer <;> simp [pauseProducer, hp]

theorem pauseProducer_lostReasons (p : TLSMemoryBIOProtocol) :
    p.pauseProducer.lostReasons = p.lostReasons := by
  cases hp : p.producer <;> simp [pauseProducer, hp]

theorem resumeProducer_disconnecting (p : TLSMemoryBIOProtocol) :
    p.resumeProducer.disconnecting = p.disconnecting := by
  cases hp : p.producer <;> simp [resumeProducer, hp]

theorem resumeProducer_lostReasons (p : TLSMemoryBIOProtocol) :
    p.resumeProducer.lostReasons = p.lostReasons := by
  cases hp : p.producer <;> simp [resumeProducer, hp]

theorem blockWrite_disconnecting (p : TLSMemoryBIOProtocol) (bs : List Nat) :
    (p.blockWrite bs).disconnecting = p.disconnecting := by
  rw [blockWrite, pauseProducer_disconnecting]

theorem blockWrite_lostReasons (p : TLSMemoryBIOProtocol) (bs : List Nat) :
    (p.blockWrite bs).lostReasons = p.lostReasons := by
  rw [blockWrite, pauseProducer_lostReasons]

theorem writeLoopFuel_pres_aux :
    ∀ (fuel : Nat) (p : TLSMemoryBIOProtocol) (bs : List Nat),
    (writeLoopFuel fuel p bs).disconnecting = p.disconnecting ∧
    (writeLoopFuel fuel p bs).lostReasons = p.lostReasons := by
  intro fuel
  induction fuel with
  | zero =>
      intro p bs
      exact ⟨rfl, rfl⟩
  | succ fuel ih =>
      intro p bs
      rw [writeLoopFuel_succ]
      by_cases hbs : bs = []
      · rw [if_pos hbs]
        exact ⟨rfl, rfl⟩
      · rw [if_neg hbs]
        split
        · exact ⟨blockWrite_disconnecting p bs, blockWrite_lostReasons p bs⟩
        · exact ih (flushSendBio { p with engine := _ }) (bs.drop _)

theorem writeLoop_disconnecting (p : TLSMemoryBIOProtocol) (bs : List Nat) :
    (p.writeLoop bs).disconnecting = p.disconnecting :=
  (writeLoopFuel_pres_aux (bs.length + 1) p bs).1

theorem writeLoop_lostReasons (p : TLSMemoryBIOProtocol) (bs : List Nat) :
    (p.writeLoop bs).lostReasons = p.lostReasons :=
  (writeLoopFuel_pres_aux (bs.length + 1) p bs).2

theorem writeInternal_disconnecting (p : TLSMemoryBIOProtocol)
    (bs : List Nat) : (p.writeInternal bs).disconnecting = p.disconnecting := by
  rw [writeInternal]
  split
  · rfl
  · exact writeLoop_disconnecting p bs

theorem writeInternal_lostReasons (p : TLSMemoryBIOProtocol)
    (bs : List Nat) : (p.writeInternal bs).lostReasons = p.lostReasons := by
  rw [writeInternal]
  split
  · rfl
  · exact writeLoop_lostReasons p bs

theorem foldl_writeInternal_disconnecting :
    ∀ (bufs : List (List Nat)) (p : TLSMemoryBIOProtocol),
    (bufs.foldl writeInternal p).disconnecting = p.disconnecting := by
  intro bufs
  induction bufs with
  | nil => intro p; rfl
  | cons c bufs ih =>
      intro p
      rw [List.foldl_cons, ih, writeInternal_disconnecting]

theorem foldl_writeInternal_lostReasons :
    ∀ (bufs : List (List Nat)) (p : TLSMemoryBIOProtocol),
    (bufs.foldl writeInternal p).lostReasons = p.lostReasons := by
  intro bufs
  induction bufs with
  | nil => intro p; rfl
  | cons c bufs ih =>
      intro p
      rw [List.foldl_cons, ih, writeInternal_lostReasons]

theorem flushReceiveBio_disconnecting (p : TLSMemoryBIOProtocol) :
    p.flushReceiveBio.disconnecting = p.disconnecting := by
  rw [flushReceiveBio]
  dsimp only
  rw [flushSendBio_disconnecting]
  split_ifs <;>
    simp [shutdownTLS_disconnecting, tlsShutdownFinished_disconnecting]

theorem flushReceiveBio_lostReasons (p : TLSMemoryBIOProtocol) :
    p.flushReceiveBio.lostReasons = p.lostReasons := by
  rw [flushReceiveBio]
  dsimp only
  rw [flushSendBio_lostReasons]
  split_ifs <;>
    simp [shutdownTLS_lostReasons, tlsShutdownFinished_lostReasons]

theorem dataReceived_disconnecting (p : TLSMemoryBIOProtocol)
    (recs : List Record) :
    (p.dataReceived recs).disconnecting = p.disconnecting := by
  rw [dataReceived]
  dsimp only
  rw [flushReceiveBio_disconnecting]
  split_ifs <;>
    simp [resumeProducer_disconnecting, shutdownTLS_disconnecting,
          foldl_writeInternal_disconnecting]

theorem dataReceived_lostReasons (p : TLSMemoryBIOProtocol)
    (recs : List Record) :
    (p.dataReceived recs).lostReasons = p.lostReasons := by
  rw [dataReceived]
  dsimp only
  rw [flushReceiveBio_lostReasons]
  split_ifs <;>
    simp [resumeProducer_lostReasons, shutdownTLS_lostReasons,
          foldl_writeInternal_lostReasons]

theorem write_disconnecting (p : TLSMemoryBIOProtocol) (bs : List Nat) :
    (p.write bs).disconnecting = p.disconnecting := by
  rw [write]
  split
  · rfl
  · exact writeInternal_disconnecting p bs

theorem write_lostReasons (p : TLSMemoryBIOProtocol) (bs : List Nat) :
    (p.write bs).lostReasons = p.lostReasons := by
  rw [write]
  split
  · rfl
  · exact writeInternal_lostReasons p bs

end TLSMemoryBIOProtocol

namespace TLSMemoryBIOProtocol

theorem writeSequence_disconnecting (p : TLSMemoryBIOProtocol)
    (bss : List (List Nat)) :
    (p.writeSequence bss).disconnecting = p.disconnecting :=
  write_disconnecting p bss.flatten

theorem writeSequence_lostReasons (p : TLSMemoryBIOProtocol)
    (bss : List (List Nat)) :
    (p.writeSequence bss).lostReasons = p.lostReasons :=
  write_lostReasons p bss.flatten

theorem loseConnection_disconnecting (p : TLSMemoryBIOProtocol) :
    p.loseConnection.disconnecting = true := by
  rw [loseConnection]
  split
  · assumption
  · dsimp only
    split
    · rw [shutdownTLS_disconnecting]
    · rfl

theorem loseConnection_lostReasons (p : TLSMemoryBIOProtocol) :
    p.loseConnection.lostReasons = p.lostReasons := by
  rw [loseConnection]
  split
  · rfl
  · dsimp only
    split
    · rw [shutdownTLS_lostReasons]
    · rfl

theorem registerProducer_disconnecting (p : TLSMemoryBIOProtocol) :
    p.registerProducer.disconnecting = p.disconnecting := by
  rw [registerProducer]
  split
  · rfl
  · split <;> rfl

theorem registerProducer_lostReasons (p : TLSMemoryBIOProtocol) :
    p.registerProducer.lostReasons = p.lostReasons := by
  rw [registerProducer]
  split
  · rfl
  · split <;> rfl

theorem unregisterProducer_disconnecting (p : TLSMemoryBIOProtocol) :
    p.unregisterProducer.disconnecting = p.disconnecting := by
  rw [unregisterProducer]
  split
  · rfl
  · dsimp only
    split
    · rw [shutdownTLS_disconnecting]
    · rfl

theorem unregisterProducer_lostReasons (p : TLSMemoryBIOProtocol) :
    p.unregisterProducer.lostReasons = p.lostReasons := by
  rw [unregisterProducer]
  split
  · rfl
  · dsimp only
    split
    · rw [shutdownTLS_lostReasons]
    · rfl

theorem transportPauseProducing_disconnecting (p : TLSMemoryBIOProtocol) :
    p.transportPauseProducing.disconnecting = p.disconnecting := by
  rw [transportPauseProducing, pauseProducer_disconnecting]

theorem transportPauseProducing_lostReasons (p : TLSMemoryBIOProtocol) :
    p.transportPauseProducing.lostReasons = p.lostReasons := by
  rw [transportPauseProducing, pauseProducer_lostReasons]

theorem transportResumeProducing_disconnecting (p : TLSMemoryBIOProtocol) :
    p.transportResumeProducing.disconnecting = p.disconnecting := by
  rw [transportResumeProducing, resumeProducer_disconnecting]

theorem transportResumeProducing_lostReasons (p : TLSMemoryBIOProtocol) :
    p.transportResumeProducing.lostReasons = p.lostReasons := by
  rw [transportResumeProducing, resumeProducer_lostReasons]

theorem makeConnection_disconnecting (p : TLSMemoryBIOProtocol) (t : Nat) :
    (p.makeConnection t).disconnecting = p.disconnecting := rfl

theorem makeConnection_lostReasons (p : TLSMemoryBIOProtocol) (t : Nat) :
    (p.makeConnection t).lostReasons = p.lostReasons := rfl

theorem connectionLost_disconnecting (p : TLSMemoryBIOProtocol) (r : Reason) :
    (p.connectionLost r).disconnecting = p.disconnecting := by
  rw [connectionLost]
  dsimp only
  split
  · rw [flushReceiveBio_disconnecting]
  · rfl

/-- The closure notification appends exactly one entry to the wrapped
protocol's connection-lost record, whatever the adapter's state. -/
theorem connectionLost_appends (p : TLSMemoryBIOProtocol) (r : Reason) :
    ∃ rr : Reason,
      (p.connectionLost r).lostReasons = p.lostReasons ++ [rr] := by
  rw [connectionLost]
  dsimp only
  split
  · exact ⟨_, by rw [flushReceiveBio_lostReasons]⟩
  · exact ⟨_, rfl⟩

end TLSMemoryBIOProtocol

theorem wirePlain_append (a b : List Record) :
    wirePlain (a ++ b) = wirePlain a ++ wirePlain b := by
  simp [wirePlain]

theorem wirePlain_map_data (chunks : List (List Nat)) :
    wirePlain (chunks.map Record.data) = chunks.flatten := by
  induction chunks with
  | nil => rfl
  | cons c chunks ih =>
      simp [wirePlain, Record.payload] at ih ⊢
      exact ih

namespace TLSMemoryBIOProtocol

/-- A plaintext write is silently dropped — the state is untouched — once
`disconnecting` is set and no producer is registered. -/
theorem write_dropped (p : TLSMemoryBIOProtocol) (bs : List Nat)
    (hd : p.disconnecting = true) (hp : p.producer = none) :
    p.write bs = p := by
  rw [write, if_pos ⟨hd, hp⟩]

theorem writeSequence_dropped (p : TLSMemoryBIOProtocol)
    (bss : List (List Nat)) (hd : p.disconnecting = true)
    (hp : p.producer = none) : p.writeSequence bss = p :=
  write_dropped p bss.flatten hd hp

theorem pushRecords_pendingPlain (p : TLSMemoryBIOProtocol)
    (chunks : List (List Nat)) (hout : p.engine.out = [])
    (hbuf : p.appSendBuffer = []) :
    (p.pushRecords (chunks.map Record.data)).pendingPlain =
      p.pendingPlain ++ chunks.flatten := by
  simp [pushRecords, pendingPlain, pendingWire, hout, hbuf, wirePlain_append,
        wirePlain_map_data]

/-- While a producer is registered, a plaintext write — even after
`loseConnection` — extends the plaintext the adapter has accepted by
exactly the written bytes (either as records handed to the transport or
as a retained buffer chunk). -/
theorem write_gain (p : TLSMemoryBIOProtocol) (bs : List Nat)
    (m : ProducerMembrane) (hm : p.producer = some m)
    (hl : p.lostTLSConnection = false)
    (hinv : p.engine.hsDone = true →
      p.appSendBuffer = [] ∧ p.engine.out = []) :
    (p.write bs).pendingPlain = p.pendingPlain ++ bs := by
  rw [write, if_neg (by simp [hm]), writeInternal, if_neg (by simp [hl])]
  by_cases hhs : p.engine.hsDone = true
  · obtain ⟨hbuf, hout⟩ := hinv hhs
    obtain ⟨chunks, hflat, heq⟩ := writeLoop_hsDone p bs hhs hout
    rw [heq, pushRecords_pendingPlain p chunks hout hbuf, hflat]
  · by_cases hbs : bs = []
    · subst hbs
      rw [writeLoop_nil, List.append_nil]
    · have hhs' : p.engine.hsDone = false := by
        revert hhs
        cases p.engine.hsDone <;> simp
      rw [writeLoop_stalled p bs hhs' hbs]
      simp [blockWrite, pauseProducer, hm, pendingPlain, pendingWire,
            List.append_assoc]

/-- Unregistering the producer while disconnecting with an empty pending
buffer initiates the TLS shutdown: the close alert is emitted. -/
theorem unregister_triggers_close (p : TLSMemoryBIOProtocol)
    (m : ProducerMembrane) (hm : p.producer = some m)
    (hd : p.disconnecting = true) (hbuf : p.appSendBuffer = []) :
    p.unregisterProducer.engine.sentClose = true ∧
    p.unregisterProducer.shutdownCalls = p.shutdownCalls + 1 := by
  simp only [unregisterProducer, hm]
  rw [if_pos ⟨hd, hbuf⟩]
  constructor
  · rw [shutdownTLS]
    split <;>
      · simp only [flushSendBio]
        rw [TLSEngine.shutdown]
        dsimp only
        split
        · assumption
        · rfl
  · rw [shutdownTLS]
    split <;> rfl

theorem tlsShutdownFinished_transportDisconnecting
    (p : TLSMemoryBIOProtocol) (r : Option Reason) :
    (p.tlsShutdownFinished r).transportDisconnecting = true := rfl

/-- When the TLS layer has already shut down cleanly (no recorded reason),
the closure notification delivers exactly the underlying transport's own
reason. -/
theorem connectionLost_clean (p : TLSMemoryBIOProtocol) (r : Reason)
    (hlost : p.lostTLSConnection = true) (hr : p.reason = none) :
    (p.connectionLost r).lostReasons = p.lostReasons ++ [r] := by
  rw [connectionLost]
  dsimp only
  rw [if_neg (by simp [hlost])]
  simp [hr]

theorem applyLive_lostReasons (p : TLSMemoryBIOProtocol) (op : LiveOp) :
    (p.applyLive op).lostReasons = p.lostReasons := by
  cases op with
  | write bs => exact write_lostReasons p bs
  | writeSequence bss => exact writeSequence_lostReasons p bss
  | dataReceived recs => exact dataReceived_lostReasons p recs
  | loseConnection => exact loseConnection_lostReasons p
  | registerProducer => exact registerProducer_lostReasons p
  | unregisterProducer => exact unregisterProducer_lostReasons p
  | transportPauseProducing => exact transportPauseProducing_lostReasons p
  | transportResumeProducing => exact transportResumeProducing_lostReasons p
  | tlsShutdownFinished r => exact tlsShutdownFinished_lostReasons p r
  | makeConnection t => exact makeConnection_lostReasons p t

theorem applyOp_disconnecting_mono (p : TLSMemoryBIOProtocol) (op : TLSOp)
    (hd : p.disconnecting = true) : (p.applyOp op).disconnecting = true := by
  cases op with
  | write bs => rw [applyOp, write_disconnecting]; exact hd
  | writeSequence bss => rw [applyOp, writeSequence_disconnecting]; exact hd
  | dataReceived recs => rw [applyOp, dataReceived_disconnecting]; exact hd
  | loseConnection => rw [applyOp]; exact loseConnection_disconnecting p
  | registerProducer => rw [applyOp, registerProducer_disconnecting]; exact hd
  | unregisterProducer =>
      rw [applyOp, unregisterProducer_disconnecting]; exact hd
  | transportPauseProducing =>
      rw [applyOp, transportPauseProducing_disconnecting]; exact hd
  | transportResumeProducing =>
      rw [applyOp, transportResumeProducing_disconnecting]; exact hd
  | tlsShutdownFinished r =>
      rw [applyOp, tlsShutdownFinished_disconnecting]; exact hd
  | connectionLost r => rw [applyOp, connectionLost_disconnecting]; exact hd
  | makeConnection t => rw [applyOp, makeConnection_disconnecting]; exact hd

end TLSMemoryBIOProtocol

namespace TLSMemoryBIOProtocol

/-- Classification of an underlying-transport close that arrives before
any TLS close alert was seen: the delivered reason is the generic
connection-lost class once application data had flowed (the EOF "looks
like ordinary end-of-stream"), and the engine's handshake failure when
the handshake never completed; never the transport's possibly-clean
reason. -/
theorem connectionLost_eof (p : TLSMemoryBIOProtocol) (r : Reason)
    (hlost : p.lostTLSConnection = false)
    (hrc : p.engine.recvdClose = false) (hr : p.reason = none) :
    (p.connectionLost r).lostReasons = p.lostReasons ++
      [if p.handshakeDone || !p.engine.plainIn.isEmpty
        then Reason.connectionLost "Connection lost before close alert"
        else Reason.sslError SSLErr.handshakeFailure] := by
  obtain ⟨e, f01, f02, f03, f04, f05, f06, f07, f08, f09, f10, f11, f12,
          f13, f14, f15, f16⟩ := p
  obtain ⟨g1, g2, g3, g4, g5, g6, g7, g8⟩ := e
  simp only at hlost hrc hr
  subst hlost hrc hr
  cases f04 <;> by_cases hpi : g5 = [] <;>
    simp [connectionLost, flushReceiveBio, tlsShutdownFinished, flushSendBio,
          shutdownTLS, hpi, List.isEmpty_iff]

end TLSMemoryBIOProtocol

namespace TLSMemoryBIOProtocol

theorem membrane_congr {p q : TLSMemoryBIOProtocol}
    (h : q.producer = p.producer) :
    q.pauseCount = p.pauseCount ∧ q.resumeCount = p.resumeCount ∧
    q.membranePaused = p.membranePaused := by
  refine ⟨?_, ?_, ?_⟩ <;>
    simp [pauseCount, resumeCount, membraneHistory, membranePaused, h]

theorem pauseStep_refl (p : TLSMemoryBIOProtocol) : PauseStep p p :=
  ⟨by simp, rfl, fun h => h⟩

theorem pauseStep_of_producer_eq {p q : TLSMemoryBIOProtocol}
    (h : q.producer = p.producer) : PauseStep p q := by
  obtain ⟨h1, h2, h3⟩ := membrane_congr h
  exact ⟨by simp [h1, h3], h2, fun hh => by rw [h3]; exact hh⟩

theorem pauseStep_trans {p q r : TLSMemoryBIOProtocol}
    (h1 : PauseStep p q) (h2 : PauseStep q r) : PauseStep p r := by
  obtain ⟨h1p, h1r, h1m⟩ := h1
  obtain ⟨h2p, h2r, h2m⟩ := h2
  refine ⟨?_, by rw [h2r, h1r], fun h => h2m (h1m h)⟩
  rw [h2p, h1p]
  cases hp : p.membranePaused <;> cases hq : q.membranePaused <;>
    cases hr : r.membranePaused <;> simp_all

theorem pauseProducer_PauseStep (p : TLSMemoryBIOProtocol) :
    PauseStep p p.pauseProducer := by
  cases hp : p.producer with
  | none => exact pauseStep_of_producer_eq (by simp [pauseProducer, hp])
  | some m =>
      by_cases hm : m.producerPaused
      · refine pauseStep_of_producer_eq ?_
        simp [pauseProducer, hp, ProducerMembrane.pauseProducing, hm]
      · refine ⟨?_, ?_, ?_⟩ <;>
          simp [pauseProducer, hp, ProducerMembrane.pauseProducing, hm,
                pauseCount, resumeCount, membraneHistory, membranePaused,
                List.count_append]

theorem resumeProducer_ResumeStep (p : TLSMemoryBIOProtocol) :
    ResumeStep p p.resumeProducer := by
  cases hp : p.producer with
  | none =>
      refine ⟨?_, ?_, ?_⟩ <;>
        simp [resumeProducer, hp, pauseCount, resumeCount, membraneHistory,
              membranePaused]
  | some m =>
      by_cases hm : m.producerPaused
      · refine ⟨?_, ?_, ?_⟩ <;>
          simp [resumeProducer, hp, ProducerMembrane.resumeProducing, hm,
                pauseCount, resumeCount, membraneHistory, membranePaused,
                List.count_append]
      · refine ⟨?_, ?_, ?_⟩ <;>
          simp [resumeProducer, hp, ProducerMembrane.resumeProducing, hm,
                pauseCount, resumeCount, membraneHistory, membranePaused]

theorem pauseStep_coalesced {p q : TLSMemoryBIOProtocol}
    (h : PauseStep p q) : CoalescedStep p q := by
  obtain ⟨h1, h2, h3⟩ := h
  refine ⟨h1, ?_⟩
  rw [h2]
  cases hp : p.membranePaused <;> cases hq : q.membranePaused <;> simp_all

theorem resumeStep_coalesced {p q : TLSMemoryBIOProtocol}
    (h : ResumeStep p q) : CoalescedStep p q := by
  obtain ⟨h1, h2, h3⟩ := h
  refine ⟨?_, h2⟩
  rw [h1]
  cases hp : p.membranePaused <;> cases hq : q.membranePaused <;> simp_all

theorem coalescedStep_of_producer_eq {p q : TLSMemoryBIOProtocol}
    (h : q.producer = p.producer) : CoalescedStep p q :=
  pauseStep_coalesced (pauseStep_of_producer_eq h)

end TLSMemoryBIOProtocol

namespace TLSMemoryBIOProtocol

theorem flushSendBio_producer (p : TLSMemoryBIOProtocol) :
    p.flushSendBio.producer = p.producer := rfl

theorem flushSendBio_writeBlockedOnRead (p : TLSMemoryBIOProtocol) :
    p.flushSendBio.writeBlockedOnRead = p.writeBlockedOnRead := rfl

theorem shutdownTLS_producer (p : TLSMemoryBIOProtocol) :
    p.shutdownTLS.producer = p.producer := by
  rw [shutdownTLS]
  split <;> rfl

theorem shutdownTLS_writeBlockedOnRead (p : TLSMemoryBIOProtocol) :
    p.shutdownTLS.writeBlockedOnRead = p.writeBlockedOnRead := by
  rw [shutdownTLS]
  split <;> rfl

theorem tlsShutdownFinished_producer (p : TLSMemoryBIOProtocol)
    (r : Option Reason) :
    (p.tlsShutdownFinished r).producer = p.producer := rfl

theorem tlsShutdownFinished_writeBlockedOnRead (p : TLSMemoryBIOProtocol)
    (r : Option Reason) :
    (p.tlsShutdownFinished r).writeBlockedOnRead = p.writeBlockedOnRead := rfl

theorem flushReceiveBio_producer (p : TLSMemoryBIOProtocol) :
    p.flushReceiveBio.producer = p.producer := by
  rw [flushReceiveBio]
  dsimp only
  rw [flushSendBio_producer]
  split_ifs <;> simp [shutdownTLS_producer, tlsShutdownFinished_producer]

theorem flushReceiveBio_writeBlockedOnRead (p : TLSMemoryBIOProtocol) :
    p.flushReceiveBio.writeBlockedOnRead = p.writeBlockedOnRead := by
  rw [flushReceiveBio]
  dsimp only
  rw [flushSendBio_writeBlockedOnRead]
  split_ifs <;>
    simp [shutdownTLS_writeBlockedOnRead, tlsShutdownFinished_writeBlockedOnRead]

theorem pauseProducer_writeBlockedOnRead (p : TLSMemoryBIOProtocol) :
    p.pauseProducer.writeBlockedOnRead = p.writeBlockedOnRead := by
  cases hp : p.producer <;> simp [pauseProducer, hp]

theorem resumeProducer_writeBlockedOnRead (p : TLSMemoryBIOProtocol) :
    p.resumeProducer.writeBlockedOnRead = p.writeBlockedOnRead := by
  cases hp : p.producer <;> simp [resumeProducer, hp]

theorem blockWrite_ReplayStep (p : TLSMemoryBIOProtocol) (bs : List Nat) :
    ReplayStep p (p.blockWrite bs) := by
  refine ⟨?_, ?_, ?_⟩
  · have hpp : (p.blockWrite bs).producer =
        ({ p with writeBlockedOnRead := true,
                  appSendBuffer := p.appSendBuffer ++ [bs] } :
          TLSMemoryBIOProtocol).pauseProducer.producer := rfl
    have hstep := pauseProducer_PauseStep
      ({ p with writeBlockedOnRead := true,
                appSendBuffer := p.appSendBuffer ++ [bs] } :
        TLSMemoryBIOProtocol)
    have hbase : PauseStep p
        ({ p with writeBlockedOnRead := true,
                  appSendBuffer := p.appSendBuffer ++ [bs] } :
          TLSMemoryBIOProtocol) := pauseStep_of_producer_eq rfl
    exact pauseStep_trans hbase hstep
  · intro _
    rw [blockWrite, pauseProducer_writeBlockedOnRead]
  · intro h
    rw [blockWrite, pauseProducer_writeBlockedOnRead] at h
    exact absurd h (by simp)

end TLSMemoryBIOProtocol

namespace TLSMemoryBIOProtocol

theorem replayStep_refl (p : TLSMemoryBIOProtocol) : ReplayStep p p :=
  ⟨pauseStep_refl p, fun h => h, fun _ => rfl⟩

theorem replayStep_of_producer_blocked_eq {p q : TLSMemoryBIOProtocol}
    (hpr : q.producer = p.producer)
    (hbl : q.writeBlockedOnRead = p.writeBlockedOnRead) : ReplayStep p q :=
  ⟨pauseStep_of_producer_eq hpr, fun h => by rw [hbl]; exact h,
   fun _ => hpr⟩

theorem replayStep_trans {p q r : TLSMemoryBIOProtocol}
    (h1 : ReplayStep p q) (h2 : ReplayStep q r) : ReplayStep p r := by
  obtain ⟨h1s, h1b, h1p⟩ := h1
  obtain ⟨h2s, h2b, h2p⟩ := h2
  refine ⟨pauseStep_trans h1s h2s, fun h => h2b (h1b h), fun h => ?_⟩
  have hq : q.writeBlockedOnRead = false := by
    by_contra hc
    have : q.writeBlockedOnRead = true := by
      revert hc
      cases q.writeBlockedOnRead <;> simp
    exact absurd (h2b this) (by simp [h])
  rw [h2p h, h1p hq]

theorem writeLoopFuel_ReplayStep_aux :
    ∀ (fuel : Nat) (p : TLSMemoryBIOProtocol) (bs : List Nat),
    ReplayStep p (writeLoopFuel fuel p bs) := by
  intro fuel
  induction fuel with
  | zero =>
      intro p bs
      exact replayStep_refl p
  | succ fuel ih =>
      intro p bs
      rw [writeLoopFuel_succ]
      by_cases hbs : bs = []
      · rw [if_pos hbs]
        exact replayStep_refl p
      · rw [if_neg hbs]
        split
        · exact blockWrite_ReplayStep p bs
        · exact replayStep_trans (replayStep_of_producer_blocked_eq rfl rfl)
            (ih (flushSendBio { p with engine := _ }) (bs.drop _))

theorem writeLoop_ReplayStep (p : TLSMemoryBIOProtocol) (bs : List Nat) :
    ReplayStep p (p.writeLoop bs) :=
  writeLoopFuel_ReplayStep_aux (bs.length + 1) p bs

theorem writeInternal_ReplayStep (p : TLSMemoryBIOProtocol) (bs : List Nat) :
    ReplayStep p (p.writeInternal bs) := by
  rw [writeInternal]
  split
  · exact replayStep_refl p
  · exact writeLoop_ReplayStep p bs

theorem foldl_writeInternal_ReplayStep :
    ∀ (bufs : List (List Nat)) (p : TLSMemoryBIOProtocol),
    ReplayStep p (bufs.foldl writeInternal p) := by
  intro bufs
  induction bufs with
  | nil => intro p; exact replayStep_refl p
  | cons c bufs ih =>
      intro p
      rw [List.foldl_cons]
      exact replayStep_trans (writeInternal_ReplayStep p c) (ih (p.writeInternal c))

end TLSMemoryBIOProtocol

namespace TLSMemoryBIOProtocol

theorem coalescedStep_congr_right {p q q' : TLSMemoryBIOProtocol}
    (h : q'.producer = q.producer) (hc : CoalescedStep p q) :
    CoalescedStep p q' := by
  obtain ⟨e1, e2, e3⟩ := membrane_congr h
  exact ⟨by rw [e1, e3]; exact hc.1, by rw [e2, e3]; exact hc.2⟩

theorem resumeStep_congr_left {p q r : TLSMemoryBIOProtocol}
    (h : q.producer = p.producer) (hr : ResumeStep q r) : ResumeStep p r := by
  obtain ⟨e1, e2, e3⟩ := membrane_congr h
  exact ⟨by rw [hr.1, e1], by rw [hr.2.1, e2, e3], fun hh => hr.2.2 (by rw [e3]; exact hh)⟩

theorem pauseStep_congr_right {p q q' : TLSMemoryBIOProtocol}
    (h : q'.producer = q.producer) (hc : PauseStep p q) : PauseStep p q' := by
  obtain ⟨e1, e2, e3⟩ := membrane_congr h
  exact ⟨by rw [e1, e3]; exact hc.1, by rw [e2]; exact hc.2.1,
         fun hh => by rw [e3]; exact hc.2.2 hh⟩

theorem bool_not_true_eq_false {b : Bool} (h : ¬b = true) : b = false := by
  revert h
  cases b <;> simp

/-- The blocked-write replay path of `dataReceived`, followed by the
optional shutdown advance and the optional producer resume, respects the
membrane's coalescing contract. -/
theorem replay_resume_coalesced (p q0 q1 q2 : TLSMemoryBIOProtocol)
    (bufs : List (List Nat))
    (hq1 : q1 = bufs.foldl writeInternal q0)
    (hq2 : q2 = q1.shutdownTLS ∨ q2 = q1)
    (hq0 : q0.producer = p.producer) :
    CoalescedStep p
      (if ¬q2.writeBlockedOnRead ∧ q2.producer ≠ none
        then q2.resumeProducer else q2) := by
  have hrq : ReplayStep q0 q1 := hq1 ▸ foldl_writeInternal_ReplayStep bufs q0
  have hq2p : q2.producer = q1.producer := by
    rcases hq2 with h | h <;> simp [h, shutdownTLS_producer]
  have hq2b : q2.writeBlockedOnRead = q1.writeBlockedOnRead := by
    rcases hq2 with h | h <;> simp [h, shutdownTLS_writeBlockedOnRead]
  split
  · rename_i hcond
    have hb : q2.writeBlockedOnRead = false := bool_not_true_eq_false hcond.1
    have hq1b : q1.writeBlockedOnRead = false := by rw [← hq2b]; exact hb
    have hprod : q1.producer = q0.producer := hrq.2.2 hq1b
    have hq2pp : q2.producer = p.producer := by rw [hq2p, hprod, hq0]
    exact resumeStep_coalesced (resumeStep_congr_left hq2pp (resumeProducer_ResumeStep q2))
  · exact coalescedStep_congr_right hq2p
      (pauseStep_coalesced (pauseStep_trans (pauseStep_of_producer_eq hq0) hrq.1))

theorem applyTrigger_coalesced (p : TLSMemoryBIOProtocol) (op : TriggerOp) :
    CoalescedStep p (p.applyTrigger op) := by
  cases op with
  | write bs =>
      rw [applyTrigger, write]
      split
      · exact coalescedStep_of_producer_eq rfl
      · exact pauseStep_coalesced (writeInternal_ReplayStep p bs).1
  | writeSequence bss =>
      rw [applyTrigger, writeSequence, write]
      split
      · exact coalescedStep_of_producer_eq rfl
      · exact pauseStep_coalesced (writeInternal_ReplayStep p bss.flatten).1
  | transportPauseProducing =>
      rw [applyTrigger, transportPauseProducing]
      exact pauseStep_coalesced (pauseStep_trans
        (pauseStep_of_producer_eq rfl) (pauseProducer_PauseStep _))
  | transportResumeProducing =>
      rw [applyTrigger, transportResumeProducing]
      exact resumeStep_coalesced (resumeStep_congr_left rfl (resumeProducer_ResumeStep _))
  | dataReceived recs =>
      rw [applyTrigger, dataReceived]
      dsimp only
      refine coalescedStep_congr_right (flushReceiveBio_producer _) ?_
      split
      · exact replay_resume_coalesced p _ _ _ _ rfl
          (by split
              · exact Or.inl rfl
              · exact Or.inr rfl) (by rfl)
      · exact coalescedStep_of_producer_eq rfl

end TLSMemoryBIOProtocol

namespace PullSys

theorem step_fixed (s : PullSys) (h : s.wrapper.finished = true) :
    s.step = s := by
  rw [step, if_pos (by simp [h])]

theorem run_fixed : ∀ (n : Nat) (s : PullSys),
    s.wrapper.finished = true → run n s = s := by
  intro n
  induction n with
  | zero => intro s _; rfl
  | succ n ih =>
      intro s h
      rw [run, step_fixed s h, ih s h]

theorem run_fail :
    ∀ (pre : List (List Nat)) (n : Nat) (s : PullSys) (e : PullErr)
      (rest : List PullAct),
    s.wrapper.finished = false → s.wrapper.taskStopped = false →
    s.acts = pre.map PullAct.produce ++ PullAct.failPull e :: rest →
    pre.length + 1 ≤ n →
    run n s =
      if s.consumerUnregRaises then
        { s with acts := rest,
                 consumerWritten := s.consumerWritten ++ pre,
                 logged := s.logged ++
                   [LogEntry.producerFailed e,
                    LogEntry.unregisterFailed PullErr.runtimeError],
                 wrapper := { s.wrapper with finished := true } }
      else
        { s with acts := rest,
                 consumerWritten := s.consumerWritten ++ pre,
                 consumerRegistered := false,
                 logged := s.logged ++ [LogEntry.producerFailed e],
                 wrapper := { finished := true, taskStopped := true } } := by
  intro pre
  induction pre with
  | nil =>
      intro n s e rest hf ht hacts hn
      cases n with
      | zero => omega
      | succ m =>
          rw [run]
          have hstep : s.step =
              if s.consumerUnregRaises then
                { s with acts := rest,
                         logged := s.logged ++
                           [LogEntry.producerFailed e,
                            LogEntry.unregisterFailed PullErr.runtimeError],
                         wrapper := { s.wrapper with finished := true } }
              else
                { s with acts := rest,
                         consumerRegistered := false,
                         logged := s.logged ++ [LogEntry.producerFailed e],
                         wrapper := { finished := true,
                                      taskStopped := true } } := by
            rw [step, if_neg (by simp [hf, ht]), hacts]
            dsimp only [List.map_nil, List.nil_append]
            by_cases hr : s.consumerUnregRaises = true
            · rw [if_pos hr, if_pos hr]
              simp
            · rw [if_neg hr, if_neg hr]
              simp [PullToPush.stopStreaming, hf]
          rw [hstep]
          by_cases hr : s.consumerUnregRaises = true
          · rw [if_pos hr, if_pos hr]
            rw [run_fixed m _ (by simp)]
            simp
          · rw [if_neg hr, if_neg hr]
            rw [run_fixed m _ (by simp)]
            simp
  | cons c pre ih =>
      intro n s e rest hf ht hacts hn
      cases n with
      | zero => simp at hn
      | succ m =>
          rw [run]
          have hstep : s.step =
              { s with acts := pre.map PullAct.produce ++
                          PullAct.failPull e :: rest,
                       consumerWritten := s.consumerWritten ++ [c] } := by
            rw [step, if_neg (by simp [hf, ht]), hacts]
            rfl
          rw [hstep]
          rw [ih m _ e rest (by simp [hf]) (by simp [ht]) (by simp)
                (by simp only [List.length_cons] at hn; omega)]
          by_cases hr : s.consumerUnregRaises = true
          · rw [if_pos (by simp [hr]), if_pos hr]
            simp
          · rw [if_neg (by simp [hr]), if_neg hr]
            simp

end PullSys

namespace TLSMemoryBIOProtocol

theorem loseConnection_of_disconnecting (p : TLSMemoryBIOProtocol)
    (h : p.disconnecting = true) : p.loseConnection = p := by
  rw [loseConnection, if_pos h]

theorem scenarioReceived_flatten (limit : Nat) (cs : List (List Nat)) :
    (scenarioReceived limit cs).flatten = cs.flatten := by
  rw [scenarioReceived, runScenario_received]
  by_cases hf : cs.flatten = [] <;> simp [hf]

end TLSMemoryBIOProtocol

namespace PullToPush

theorem stopStreaming_finished (s : PullToPush) :
    s.stopStreaming.finished = true := by
  rw [stopStreaming]
  split
  · assumption
  · rfl

theorem stopStreaming_of_finished (s : PullToPush) (h : s.finished = true) :
    s.stopStreaming = s := by
  rw [stopStreaming, if_pos h]

end PullToPush

open TLSMemoryBIOProtocol

/-- C1: for every payload, the bytes delivered to the peer's application
protocol are identical regardless of how the writer split them into
`write` calls — including an oversized single write whose suffix the
engine cannot accept immediately, which is chunked (the engine accepts at
most `limit` bytes per round), buffered, and retried — and the
concatenation of all delivered chunks equals the original payload. -/
theorem C1_chunking_transparent (limit : Nat) (cs csB : List (List Nat))
    (h : cs.flatten = csB.flatten) :
    scenarioReceived limit cs = scenarioReceived limit csB ∧
    (scenarioReceived limit cs).flatten = cs.flatten := by
  constructor
  · rw [scenarioReceived, scenarioReceived, runScenario_received,
        runScenario_received, h]
  · exact scenarioReceived_flatten limit cs

/-- Witness for C1: a single 10-byte write against an engine accepting at
most 3 bytes per round versus the same payload split into four writes
(one empty). -/
theorem C1_chunking_transparent_witness :
    ([[0, 1, 2, 3, 4, 5, 6, 7, 8, 9]] : List (List Nat)).flatten =
      ([[0, 1], [2, 3, 4], [], [5, 6, 7, 8, 9]] :
        List (List Nat)).flatten ∧
    (scenarioReceived 3 [[0, 1, 2, 3, 4, 5, 6, 7, 8, 9]] =
      scenarioReceived 3 [[0, 1], [2, 3, 4], [], [5, 6, 7, 8, 9]] ∧
    (scenarioReceived 3 [[0, 1, 2, 3, 4, 5, 6, 7, 8, 9]]).flatten =
      ([[0, 1, 2, 3, 4, 5, 6, 7, 8, 9]] : List (List Nat)).flatten) :=
  ⟨by decide,
   C1_chunking_transparent 3 [[0, 1, 2, 3, 4, 5, 6, 7, 8, 9]]
     [[0, 1], [2, 3, 4], [], [5, 6, 7, 8, 9]] (by decide)⟩

/-- C2: for every chunk size (any split of the payload), plaintext
written to the adapter before the TLS handshake has completed is buffered
(the non-empty chunks are retained in order in the pending-write buffer)
and, once the handshake finishes, is still delivered to the peer's
application protocol intact and in original write order. -/
theorem C2_write_before_handshake (limit : Nat) (cs : List (List Nat)) :
    (clientAfterWrites limit cs).appSendBuffer =
      cs.filter (fun c => !c.isEmpty) ∧
    (scenarioReceived limit cs).flatten = cs.flatten := by
  constructor
  · rw [clientAfterWrites_eq]
    rfl
  · exact scenarioReceived_flatten limit cs

/-- C3: `disconnecting` is monotone — no adapter operation ever clears
it; once set, plaintext writes (`write` and `writeSequence`) are silently
dropped when no producer is registered; with a producer still registered
writes continue to be accepted (the adapter's pending plaintext grows by
exactly the written bytes); and unregistering the producer while
disconnecting with no pending plaintext triggers the close sequence (the
close alert is emitted). -/
theorem C3_disconnecting_monotone :
    (∀ (p : TLSMemoryBIOProtocol) (op : TLSOp), p.disconnecting = true →
      (p.applyOp op).disconnecting = true) ∧
    (∀ (p : TLSMemoryBIOProtocol) (bs : List Nat), p.disconnecting = true →
      p.producer = none → p.write bs = p) ∧
    (∀ (p : TLSMemoryBIOProtocol) (bss : List (List Nat)),
      p.disconnecting = true → p.producer = none →
      p.writeSequence bss = p) ∧
    (∀ (p : TLSMemoryBIOProtocol) (bs : List Nat) (m : ProducerMembrane),
      p.producer = some m → p.lostTLSConnection = false →
      (p.engine.hsDone = true → p.appSendBuffer = [] ∧ p.engine.out = []) →
      (p.write bs).pendingPlain = p.pendingPlain ++ bs) ∧
    (∀ (p : TLSMemoryBIOProtocol) (m : ProducerMembrane),
      p.producer = some m → p.disconnecting = true → p.appSendBuffer = [] →
      p.unregisterProducer.engine.sentClose = true ∧
      p.unregisterProducer.shutdownCalls = p.shutdownCalls + 1) :=
  ⟨applyOp_disconnecting_mono, write_dropped, writeSequence_dropped,
   fun p bs m hm hl hinv => write_gain p bs m hm hl hinv,
   fun p m hm hd hbuf => unregister_triggers_close p m hm hd hbuf⟩

/-- Witness for C3 at concrete adapters: one disconnected without a
producer (writes dropped), one disconnected with a producer registered
(writes still accepted, unregistration emits the close alert). -/
theorem C3_disconnecting_monotone_witness :
    ((((TLSMemoryBIOProtocol.init true 5 0).makeConnection
        100).loseConnection.applyOp (TLSOp.write [1])).disconnecting =
      true) ∧
    (((TLSMemoryBIOProtocol.init true 5 0).makeConnection
        100).loseConnection.write [7] =
      ((TLSMemoryBIOProtocol.init true 5 0).makeConnection
        100).loseConnection) ∧
    (((((TLSMemoryBIOProtocol.init true 5 0).makeConnection
        100).registerProducer).loseConnection.write [7]).pendingPlain =
      ((((TLSMemoryBIOProtocol.init true 5 0).makeConnection
        100).registerProducer).loseConnection).pendingPlain ++ [7]) ∧
    (((((TLSMemoryBIOProtocol.init true 5 0).makeConnection
        100).registerProducer).loseConnection).unregisterProducer.engine.sentClose =
      true) :=
  ⟨C3_disconnecting_monotone.1 _ (TLSOp.write [1]) (by decide),
   C3_disconnecting_monotone.2.1 _ [7] (by decide) (by decide),
   C3_disconnecting_monotone.2.2.2.1 _ [7] ProducerMembrane.init (by decide)
     (by decide) (by decide),
   (C3_disconnecting_monotone.2.2.2.2 _ ProducerMembrane.init (by decide)
     (by decide) (by decide)).1⟩

/-- Counterexample to C4: in the test suite's own
`loseConnectionWithProducer` scenario, the writes issued strictly between
`loseConnection()` and the producer's unregistration (`"hello"`, `" "`,
`"world"`) ARE delivered to the peer — the server receives
`"x hello world"`, not just the pre-`loseConnection` `"x "` — so such
writes are not silently dropped. -/
theorem C4_counterexample :
    (loseConnScenario).2.received.flatten = bytesOf "x hello world" ∧
    (loseConnScenario).2.received.flatten ≠ bytesOf "x " := by
  constructor
  · decide
  · decide

/-- C4 (amended): with a producer registered, writes issued strictly
between `loseConnection()` and the producer's unregistration are accepted
and delivered (the pending plaintext grows by exactly the written bytes),
alongside writes issued before `loseConnection()`; writes are silently
dropped only once no producer is registered — in particular after the
unregistration. -/
theorem C4_writes_between_loseConnection_and_unregister :
    (∀ (p : TLSMemoryBIOProtocol) (bs : List Nat) (m : ProducerMembrane),
      p.producer = some m → p.disconnecting = true →
      p.lostTLSConnection = false →
      (p.engine.hsDone = true → p.appSendBuffer = [] ∧ p.engine.out = []) →
      (p.write bs).pendingPlain = p.pendingPlain ++ bs) ∧
    (∀ (p : TLSMemoryBIOProtocol) (bs : List Nat), p.disconnecting = true →
      p.producer = none → p.write bs = p) :=
  ⟨fun p bs m hm _ hl hinv => write_gain p bs m hm hl hinv, write_dropped⟩

/-- Witness for C4 (amended), at a disconnected adapter with a live
producer and at one whose producer has been unregistered. -/
theorem C4_writes_between_loseConnection_and_unregister_witness :
    (((((TLSMemoryBIOProtocol.init true 5 0).makeConnection
        100).registerProducer).loseConnection.write [9]).pendingPlain =
      ((((TLSMemoryBIOProtocol.init true 5 0).makeConnection
        100).registerProducer).loseConnection).pendingPlain ++ [9]) ∧
    ((((((TLSMemoryBIOProtocol.init true 5 0).makeConnection
        100).registerProducer).loseConnection).unregisterProducer.write [9]) =
      ((((TLSMemoryBIOProtocol.init true 5 0).makeConnection
        100).registerProducer).loseConnection).unregisterProducer) :=
  ⟨C4_writes_between_loseConnection_and_unregister.1 _ [9]
     ProducerMembrane.init (by decide) (by decide) (by decide) (by decide),
   C4_writes_between_loseConnection_and_unregister.2 _ [9] (by decide)
     (by decide)⟩

/-- C5: the wrapped protocol's `connectionLost` notification fires exactly
once per underlying-transport closure and never from any other adapter
operation: every non-closure operation leaves the notification record
unchanged, the closure notification appends exactly one reason,
TLS-shutdown completion alone only instructs the underlying transport to
disconnect without notifying, and when the TLS layer closed cleanly the
delivered reason is the underlying transport close's own reason. -/
theorem C5_connectionLost_exactly_once :
    (∀ (p : TLSMemoryBIOProtocol) (op : LiveOp),
      (p.applyLive op).lostReasons = p.lostReasons) ∧
    (∀ (p : TLSMemoryBIOProtocol) (r : Reason), ∃ rr : Reason,
      (p.connectionLost r).lostReasons = p.lostReasons ++ [rr]) ∧
    (∀ (p : TLSMemoryBIOProtocol) (r : Option Reason),
      (p.tlsShutdownFinished r).transportDisconnecting = true ∧
      (p.tlsShutdownFinished r).lostReasons = p.lostReasons) ∧
    (∀ (p : TLSMemoryBIOProtocol) (r : Reason),
      p.lostTLSConnection = true → p.reason = none →
      (p.connectionLost r).lostReasons = p.lostReasons ++ [r]) :=
  ⟨applyLive_lostReasons, connectionLost_appends,
   fun p r => ⟨tlsShutdownFinished_transportDisconnecting p r,
               tlsShutdownFinished_lostReasons p r⟩,
   connectionLost_clean⟩

/-- Witness for C5, mirroring the test: after a clean TLS shutdown the
transport is told to close without notifying the protocol, and the later
transport closure delivers exactly its own reason, once. -/
theorem C5_connectionLost_exactly_once_witness :
    ((((TLSMemoryBIOProtocol.init true 5 0).makeConnection
        100).tlsShutdownFinished none).connectionLost
      (Reason.connectionLost "ono")).lostReasons =
      (((TLSMemoryBIOProtocol.init true 5 0).makeConnection
        100).tlsShutdownFinished none).lostReasons ++
        [Reason.connectionLost "ono"] :=
  C5_connectionLost_exactly_once.2.2.2 _ (Reason.connectionLost "ono")
    (by decide) (by decide)

/-- Counterexample to C6: in the both-stall-sources scenario pinned by the
test suite, after the underlying transport pauses, the engine stalls a
write (coalesced into the same pause), and the underlying transport then
resumes, the application producer has been resumed — history
`[pause, resume]`, membrane unpaused — while the engine's
write-blocked-on-read stall source is still active; so the membrane is
not "paused whenever either stall source is active", and it resumes
before both sources have cleared. -/
theorem C6_counterexample :
    bothPauseScenario.writeBlockedOnRead = true ∧
    stallActive bothPauseScenario = true ∧
    bothPauseScenario.membranePaused = false ∧
    membraneHistory bothPauseScenario = [MEv.pause, MEv.resume] := by
  refine ⟨?_, ?_, ?_, ?_⟩ <;> decide

/-- C6 (amended): the membrane pauses on the first stall trigger and
resumes on the first resume signal even if the other stall source is
still active; the coalescing guarantee holds: across every adapter
stall-trigger operation, the registered application producer's
`pauseProducing` is invoked exactly once per transition into the paused
state — never once per trigger — and `resumeProducing` exactly once per
transition out. -/
theorem C6_membrane_coalescing (p : TLSMemoryBIOProtocol) (op : TriggerOp) :
    CoalescedStep p (p.applyTrigger op) :=
  applyTrigger_coalesced p op

/-- C7: for every wrapped pull producer that raises on some pull (after
producing `pre` and regardless of its remaining behaviour), the
pull-to-push adapter catches the exception rather than propagating it to
the consumer: it logs the error, ends with `finished` true, and
unregisters from the consumer; if the consumer's `unregisterProducer`
itself raises, the second error is logged separately, the wrapper still
finishes, and in every case the chunks written before the failure are
preserved in the consumer. -/
theorem C7_pull_failure_policy (pre : List (List Nat)) (e : PullErr)
    (rest : List PullAct) (b : Bool) (n : Nat)
    (hn : pre.length + 1 ≤ n) :
    (PullSys.run n (PullSys.init
        (pre.map PullAct.produce ++ PullAct.failPull e :: rest)
        b)).consumerWritten = pre ∧
    (PullSys.run n (PullSys.init
        (pre.map PullAct.produce ++ PullAct.failPull e :: rest)
        b)).wrapper.finished = true ∧
    (PullSys.run n (PullSys.init
        (pre.map PullAct.produce ++ PullAct.failPull e :: rest)
        b)).consumerRegistered = b ∧
    (PullSys.run n (PullSys.init
        (pre.map PullAct.produce ++ PullAct.failPull e :: rest)
        b)).logged =
      (if b then [LogEntry.producerFailed e,
                  LogEntry.unregisterFailed PullErr.runtimeError]
       else [LogEntry.producerFailed e]) := by
  rw [PullSys.run_fail pre n _ e rest rfl rfl rfl hn]
  by_cases hb : b = true
  · subst hb
    simp [PullSys.init, PullToPush.init]
  · have hb' : b = false := by
      revert hb
      cases b <;> simp
    subst hb'
    simp [PullSys.init, PullToPush.init]

/-- Witness for C7, mirroring the test: two chunks produced, then the
pull raises and the consumer's unregister raises too — both errors are
logged, the wrapper finishes, and the two chunks survive. -/
theorem C7_pull_failure_policy_witness :
    ([[0], [1]] : List (List Nat)).length + 1 ≤ 5 ∧
    ((PullSys.run 5 (PullSys.init
        ([[0], [1]].map PullAct.produce ++
          PullAct.failPull PullErr.zeroDivisionError :: []) true)).consumerWritten =
      [[0], [1]] ∧
    (PullSys.run 5 (PullSys.init
        ([[0], [1]].map PullAct.produce ++
          PullAct.failPull PullErr.zeroDivisionError :: []) true)).wrapper.finished =
      true ∧
    (PullSys.run 5 (PullSys.init
        ([[0], [1]].map PullAct.produce ++
          PullAct.failPull PullErr.zeroDivisionError :: []) true)).consumerRegistered =
      true ∧
    (PullSys.run 5 (PullSys.init
        ([[0], [1]].map PullAct.produce ++
          PullAct.failPull PullErr.zeroDivisionError :: []) true)).logged =
      (if true then [LogEntry.producerFailed PullErr.zeroDivisionError,
                     LogEntry.unregisterFailed PullErr.runtimeError]
       else [LogEntry.producerFailed PullErr.zeroDivisionError])) :=
  ⟨by decide,
   C7_pull_failure_policy [[0], [1]] PullErr.zeroDivisionError [] true 5
     (by decide)⟩

/-- Counterexample to C8: when the underlying transport closes before any
close alert while the handshake is still in progress (the disorderly
shutdown scenario of the test suite), the delivered reason is the
engine's own error — not a reason of the generic "connection lost"
class, contradicting the claim's unqualified classification. -/
theorem C8_counterexample :
    disorderlyScenario.lostReasons =
      [Reason.sslError SSLErr.handshakeFailure] ∧
    (Reason.sslError SSLErr.handshakeFailure).isConnectionLostClass =
      false := by
  constructor <;> decide

/-- C8 (amended): whenever the underlying transport closes before any TLS
close alert has been seen, the adapter notifies the application protocol
exactly once with an abnormal reason, never the clean close: the generic
connection-lost class when application data had flowed (the EOF looks
like ordinary end-of-stream), and the engine's own handshake-failure
error when the handshake never completed; never a silent hang. -/
theorem C8_abnormal_disconnect (p : TLSMemoryBIOProtocol) (r : Reason)
    (hlost : p.lostTLSConnection = false)
    (hrc : p.engine.recvdClose = false) (hr : p.reason = none) :
    (p.connectionLost r).lostReasons = p.lostReasons ++
      [if p.handshakeDone || !p.engine.plainIn.isEmpty
        then Reason.connectionLost "Connection lost before close alert"
        else Reason.sslError SSLErr.handshakeFailure] ∧
    (if p.handshakeDone || !p.engine.plainIn.isEmpty
      then Reason.connectionLost "Connection lost before close alert"
      else Reason.sslError SSLErr.handshakeFailure) ≠
      Reason.connectionDone ∧
    (if p.handshakeDone || !p.engine.plainIn.isEmpty
      then Reason.connectionLost "Connection lost before close alert"
      else Reason.sslError SSLErr.handshakeFailure).isConnectionLostClass =
      (p.handshakeDone || !p.engine.plainIn.isEmpty) := by
  refine ⟨connectionLost_eof p r hlost hrc hr, ?_, ?_⟩ <;>
    by_cases h : (p.handshakeDone || !p.engine.plainIn.isEmpty) = true <;>
      simp [h, Reason.isConnectionLostClass]

/-- Witness for C8, at an adapter that has completed the handshake and
received data (the end of the write-before-handshake scenario), whose
underlying transport then closes with a clean-looking reason: the
delivered reason is the generic connection-lost class. -/
theorem C8_abnormal_disconnect_witness :
    ((runScenario 1000 [[1, 2, 3]]).2.lostTLSConnection = false ∧
     (runScenario 1000 [[1, 2, 3]]).2.engine.recvdClose = false ∧
     (runScenario 1000 [[1, 2, 3]]).2.reason = none) ∧
    (((runScenario 1000 [[1, 2, 3]]).2.connectionLost
        Reason.connectionDone).lostReasons =
      (runScenario 1000 [[1, 2, 3]]).2.lostReasons ++
        [if (runScenario 1000 [[1, 2, 3]]).2.handshakeDone ||
            !(runScenario 1000 [[1, 2, 3]]).2.engine.plainIn.isEmpty
          then Reason.connectionLost "Connection lost before close alert"
          else Reason.sslError SSLErr.handshakeFailure]) :=
  ⟨⟨by decide, by decide, by decide⟩,
   (C8_abnormal_disconnect (runScenario 1000 [[1, 2, 3]]).2
     Reason.connectionDone (by decide) (by decide) (by decide)).1⟩

/-- C9: `loseConnection` is idempotent — from any state, a second and
every later call leaves the adapter state completely unchanged (in
particular the TLS shutdown is initiated exactly once), and the first
call leaves `disconnecting` set; likewise `stopStreaming` on the
pull-to-push wrapper may be called more than once: repeat calls change
nothing further and leave `finished` true. -/
theorem C9_idempotence :
    (∀ p : TLSMemoryBIOProtocol,
      p.loseConnection.loseConnection = p.loseConnection ∧
      p.loseConnection.disconnecting = true) ∧
    (∀ s : PullToPush,
      s.stopStreaming.stopStreaming = s.stopStreaming ∧
      s.stopStreaming.finished = true) :=
  ⟨fun p => ⟨loseConnection_of_disconnecting _
              (loseConnection_disconnecting p),
             loseConnection_disconnecting p⟩,
   fun s => ⟨PullToPush.stopStreaming_of_finished _
              (PullToPush.stopStreaming_finished s),
             PullToPush.stopStreaming_finished s⟩⟩

/-- C10: attaching the adapter to an underlying transport sets the
wrapped application protocol's transport reference to the adapter itself
— never to the underlying transport — so every byte the application
writes passes through the TLS layer. -/
theorem C10_wrapped_transport_is_adapter (p : TLSMemoryBIOProtocol)
    (t : Nat) :
    ((p.makeConnection t).wrappedTransport = some p.selfId ∧
     (p.makeConnection t).connected = true) ∧
    (p.selfId ≠ t → (p.makeConnection t).wrappedTransport ≠ some t) := by
  refine ⟨⟨rfl, rfl⟩, fun h hcontr => ?_⟩
  have : some p.selfId = some t := by
    rw [← hcontr]
    rfl
  exact h (Option.some.inj this)

/-- Witness for C10 at a fresh adapter (identity 0) attached to transport
identity 100. -/
theorem C10_wrapped_transport_is_adapter_witness :
    (TLSMemoryBIOProtocol.init true 5 0).selfId ≠ 100 ∧
    (((TLSMemoryBIOProtocol.init true 5 0).makeConnection
        100).wrappedTransport =
      some (TLSMemoryBIOProtocol.init true 5 0).selfId ∧
    ((TLSMemoryBIOProtocol.init true 5 0).makeConnection
        100).wrappedTransport ≠ some 100) :=
  ⟨by decide,
   (C10_wrapped_transport_is_adapter (TLSMemoryBIOProtocol.init true 5 0)
     100).1.1,
   (C10_wrapped_transport_is_adapter (TLSMemoryBIOProtocol.init true 5 0)
     100).2 (by decide)⟩
